import Mathlib

/-!
Verification of the SelfAgent decision core against its specification.

The Python sources embedded here (shallowly, with `Float` modelled as `ℚ`,
`dict` as association lists, and fallible external calls as `Except`):
- `app/services/routing/intelligent_router.py` (`IntelligentRouter`)
- `app/services/intervention/dbt_intervention.py` (`RiskAssessmentEngine`)
- `app/modules/dbt/services/skill_matcher.py` (`SkillMatcher`)
- `app/modules/dbt/services/recommendation_engine.py` (`RecommendationEngine`)
- `app/modules/dbt/services/llm_service.py` (`LLMService` fallback structure)

Logging calls are ignored.  Human-readable message strings are kept, except
that the interpolation of numeric values into messages (`f"{x:.2f}"`) is
elided: messages keep their fixed prefixes only, which preserves how many
indicators are produced and which branch produced each one.
-/

set_option maxHeartbeats 1000000

namespace SelfAgent

/-! ## String helpers

Python `needle in haystack` is substring containment.  We implement it on
`List Char` to keep everything executable and elementary. -/

/-- The `charsStart n h` is true when `n` is an initial segment of `h`. -/
def charsStart : List Char → List Char → Bool
  | [], _ => true
  | _ :: _, [] => false
  | a :: as, b :: bs => a == b && charsStart as bs

/-- The `charsHas n h` is true when `n` occurs contiguously inside `h`. -/
def charsHas (n : List Char) : List Char → Bool
  | [] => charsStart n []
  | c :: t => charsStart n (c :: t) || charsHas n t

/-- Python `needle in hay` for strings (substring containment). -/
def strHas (hay needle : String) : Bool :=
  charsHas needle.toList hay.toList

/-! ## Finite maps (Python `dict`)

A Python `dict<str, float>` is modelled as an association list with the
first binding of a key authoritative.  Inputs built from actual dicts have
pairwise-distinct keys; theorems that depend on that state it explicitly. -/

/-- The model of `Dict[str, float]`. -/
abbrev QMap := List (String × ℚ)

/-- First binding of key `k`, i.e. Python `m[k]` / `k in m`. -/
def getv : QMap → String → Option ℚ
  | [], _ => none
  | (k, v) :: rest, key => if k = key then some v else getv rest key

/-- Python `m.get(k, d)`. -/
def getDef (m : QMap) (key : String) (d : ℚ) : ℚ :=
  (getv m key).getD d

/-- Python `m.get(k, 0.0)`. -/
def getD (m : QMap) (key : String) : ℚ :=
  getDef m key 0

/-- Python `max(m.values())` for a non-empty dict, and `0.0` for an empty
one (the router guards with `if emotion_features else 0.0`). -/
def valuesMax : QMap → ℚ
  | [] => 0
  | (_, v) :: [] => v
  | (_, v) :: p :: rest => max v (valuesMax (p :: rest))

/-- Keys of the map are pairwise distinct (true of every real `dict`). -/
def keysNodup (m : QMap) : Prop :=
  (m.map Prod.fst).Nodup

/-! ## `IntelligentRouter` (`app/services/routing/intelligent_router.py`) -/

/-- The `RouteLevel` enum. -/
inductive RouteLevel where
  | L1_QUICK
  | L2_INTERVENTION
  | L3_CRISIS
deriving DecidableEq, Repr

/-- The `RouteResult` dataclass. -/
structure RouteResult where
  level : RouteLevel
  confidence : ℚ
  reason : String
  suggested_action : String
  requires_dbt : Bool
  crisis_flag : Bool
deriving DecidableEq, Repr

/-- The configuration slice read in `IntelligentRouter.__init__`:
`l1_quick_threshold` (default 0.3), `l2_intervention_threshold`
(default 0.7), `l3_crisis_keywords`, and the `dbt_emotions` list. -/
structure RouterConfig where
  l1_threshold : ℚ := 3/10
  l2_threshold : ℚ := 7/10
  crisis_keywords : List String := []
  dbt_emotions : List String := []

/-- The crisis indicators collected by `_check_crisis_signals`, in source
order.  A Python `set` iteration order is unspecified; the keyword list is
kept in list order, which fixes one admissible order. -/
def crisisIndicators (cfg : RouterConfig) (text : String) (em : QMap)
    (audioF : Option QMap) (videoF : Option QMap) : List String :=
  -- 1. keyword detection against text.lower()
  let kws := (cfg.crisis_keywords.filter (fun kw => strHas text.toLower kw)).map
    (fun kw => "检测到危机关键词: " ++ kw)
  -- 2. extreme self-harm emotion, only when the key is present
  let selfHarmHigh :=
    match getv em "自伤冲动" with
    | some v => if v > 1/2 then ["自伤冲动得分过高"] else []
    | none => []
  -- 3. despair, only when the key is present (threshold lowered to 0.4)
  let despairHigh :=
    match getv em "绝望" with
    | some v => if v > 2/5 then ["绝望情绪得分过高"] else []
    | none => []
  -- 3.1 emptiness + despair combination
  let emptiness := getD em "空虚感"
  let despair := getD em "绝望"
  let combo1 := if emptiness > 3/10 ∧ despair > 3/10 then ["空虚感与绝望并存"] else []
  -- 3.2 self-harm + despair combination
  let self_harm := getD em "自伤冲动"
  let combo2 := if self_harm > 3/10 ∧ despair > 3/10 then ["自伤冲动与绝望并存"] else []
  -- 4. audio crisis signals
  let audioInd :=
    match audioF with
    | none => []
    | some a =>
      (if getDef a "jitter" 0 > 50 then ["音频音抖异常"] else []) ++
      (let tempo := getDef a "tempo" 120
       if tempo > 180 ∨ tempo < 60 then ["语速异常"] else [])
  -- 5. video crisis signals
  let videoInd :=
    match videoF with
    | none => []
    | some vf => if getDef vf "edge_density" 0 > 3/10 then ["面部表情张力过高"] else []
  kws ++ selfHarmHigh ++ despairHigh ++ combo1 ++ combo2 ++ audioInd ++ videoInd

/-- The `_check_crisis_signals`. -/
def checkCrisisSignals (cfg : RouterConfig) (text : String) (em : QMap)
    (audioF : Option QMap) (videoF : Option QMap) : RouteResult :=
  let inds := crisisIndicators cfg text em audioF videoF
  if inds ≠ [] then
    { level := RouteLevel.L3_CRISIS
      confidence := 1
      reason := String.intercalate "; " inds
      suggested_action := "立即启动最高优先级干预，联系紧急联系人"
      requires_dbt := true
      crisis_flag := true }
  else
    { level := RouteLevel.L1_QUICK, confidence := 0, reason := ""
      suggested_action := "", requires_dbt := false, crisis_flag := false }

/-- Step 1 of `_check_intervention_needed`: the four core DBT emotions,
each counted when present and above 0.3, contributing `score × 0.3`. -/
def corePairs (em : QMap) : List (String × ℚ) :=
  ["空虚感", "羞愧", "激越", "自伤冲动"].filterMap (fun e =>
    match getv em e with
    | some v => if v > 3/10 then some ("检测到核心情绪: " ++ e, v * (3/10)) else none
    | none => none)

/-- Step 2: total of the configured negative-emotion list, above 0.5. -/
def negPairs (cfg : RouterConfig) (em : QMap) : List (String × ℚ) :=
  let negative_score := (cfg.dbt_emotions.map (fun e => getD em e)).sum
  if negative_score > 1/2 then [("负面情绪总分", negative_score * (3/10))] else []

/-- Step 2.1: at least two negative emotions simultaneously above 0.2. -/
def multiPairs (cfg : RouterConfig) (em : QMap) : List (String × ℚ) :=
  let active := (cfg.dbt_emotions.filter (fun e => getD em e > 1/5)).length
  if active ≥ 2 then [("多情绪组合", 3/10)] else []

/-- Step 3: arousal, computed as the maximum value of the emotion map
(`max(emotion_features.values()) if emotion_features else 0.0`), compared
against the L2 threshold. -/
def arousalPair (cfg : RouterConfig) (em : QMap) : List (String × ℚ) :=
  if valuesMax em > cfg.l2_threshold then [("情绪唤醒度过高", 3/10)] else []

/-- Steps 4: audio auxiliary checks. -/
def audioPairs (audioF : Option QMap) : List (String × ℚ) :=
  match audioF with
  | none => []
  | some a =>
    (if getDef a "tempo" 0 > 140 ∧ getDef a "energy" 0 > 1/2
     then [("音频检测到激越状态", 1/5)] else []) ++
    (if getDef a "jitter" 0 > 30 then [("音频检测到紧张状态", 3/20)] else [])

/-- Step 5: video auxiliary check. -/
def videoPairs (videoF : Option QMap) : List (String × ℚ) :=
  match videoF with
  | none => []
  | some vf =>
    if getDef vf "edge_density" 0 > 1/5 then [("视频检测到表情紧张", 1/10)] else []

/-- All indicator/score-increment pairs of `_check_intervention_needed`,
in source order.  Every appended indicator comes with its score increment,
so the accumulated score is the sum of the second components. -/
def interventionPairs (cfg : RouterConfig) (em : QMap)
    (audioF : Option QMap) (videoF : Option QMap) : List (String × ℚ) :=
  corePairs em ++ negPairs cfg em ++ multiPairs cfg em ++ arousalPair cfg em ++
    audioPairs audioF ++ videoPairs videoF

/-- The accumulated `intervention_score`. -/
def interventionScore (cfg : RouterConfig) (em : QMap)
    (audioF : Option QMap) (videoF : Option QMap) : ℚ :=
  ((interventionPairs cfg em audioF videoF).map Prod.snd).sum

/-- The `intervention_indicators` list. -/
def interventionIndicators (cfg : RouterConfig) (em : QMap)
    (audioF : Option QMap) (videoF : Option QMap) : List String :=
  (interventionPairs cfg em audioF videoF).map Prod.fst

/-- The `_check_intervention_needed`. -/
def checkInterventionNeeded (cfg : RouterConfig) (em : QMap)
    (audioF : Option QMap) (videoF : Option QMap) : RouteResult :=
  let score := interventionScore cfg em audioF videoF
  let inds := interventionIndicators cfg em audioF videoF
  if score ≥ cfg.l2_threshold ∨ inds.length ≥ 2 then
    { level := RouteLevel.L2_INTERVENTION
      confidence := min score 1
      reason := String.intercalate "; " inds
      suggested_action := "激活DBT技能匹配模块"
      requires_dbt := true
      crisis_flag := false }
  else
    { level := RouteLevel.L1_QUICK, confidence := 0, reason := ""
      suggested_action := "", requires_dbt := false, crisis_flag := false }

/-- The `IntelligentRouter.route`: the crisis check runs first and returns
immediately when it fires; the intervention check runs second; the default
quick path is last. -/
def route (cfg : RouterConfig) (text : String) (em : QMap)
    (audioF : Option QMap := none) (videoF : Option QMap := none) : RouteResult :=
  let crisis_result := checkCrisisSignals cfg text em audioF videoF
  if crisis_result.crisis_flag then crisis_result
  else
    let intervention_result := checkInterventionNeeded cfg em audioF videoF
    if intervention_result.level = RouteLevel.L2_INTERVENTION then intervention_result
    else
      { level := RouteLevel.L1_QUICK
        confidence := 4/5
        reason := "日常闲聊或社交辞令"
        suggested_action := "直接回复，无需深度评估"
        requires_dbt := false
        crisis_flag := false }

/-! ## `RiskAssessmentEngine` (`app/services/intervention/dbt_intervention.py`) -/

/-- The `RiskLevel` enum of the risk engine. -/
inductive RiskLevel where
  | LOW
  | MEDIUM
  | HIGH
  | CRITICAL
deriving DecidableEq, Repr

/-- Position of a level in the order LOW < MEDIUM < HIGH < CRITICAL. -/
def RiskLevel.idx : RiskLevel → Nat
  | .LOW => 0
  | .MEDIUM => 1
  | .HIGH => 2
  | .CRITICAL => 3

/-- The conversation-context flag dict produced by
`IntelligentRouter.analyze_conversation_context` and read (two flags) by
`_calculate_risk_level`. -/
structure ConvContext where
  repetition_pattern : Bool := false
  escalation_pattern : Bool := false
  self_critical_pattern : Bool := false
  help_seeking_pattern : Bool := false
deriving DecidableEq, Repr

/-- Term 1 of `_calculate_risk_level`: self-harm impulse. -/
def riskSelfHarmTerm (em : QMap) : ℚ :=
  let self_harm := getD em "自伤冲动"
  if self_harm > 7/10 then 40 else if self_harm > 2/5 then 20 else 0

/-- Term 2: despair. -/
def riskDespairTerm (em : QMap) : ℚ :=
  let despair := getD em "绝望"
  if despair > 7/10 then 30 else if despair > 2/5 then 15 else 0

/-- Term 3: agitation. -/
def riskAgitationTerm (em : QMap) : ℚ :=
  let agitation := getD em "激越"
  if agitation > 7/10 then 20 else if agitation > 2/5 then 10 else 0

/-- Term 4: emotion slope (deterioration trend). -/
def riskSlopeTerm (slope : ℚ) : ℚ :=
  if slope > 3/10 then 25 else if slope > 1/10 then 15 else 0

/-- Term 5: compound negative emotions.  The source list is
`['悲伤', '焦虑', '恐惧', '羞愧', '内疚']` — sadness, anxiety, fear,
shame, guilt. -/
def riskCompoundTerm (em : QMap) : ℚ :=
  let negative_total :=
    getD em "悲伤" + getD em "焦虑" + getD em "恐惧" + getD em "羞愧" + getD em "内疚"
  if negative_total > 3 then 15 else if negative_total > 2 then 10 else 0

/-- Term 6: conversation-context flags. -/
def riskContextTerm (ctx : Option ConvContext) : ℚ :=
  match ctx with
  | none => 0
  | some c => (if c.escalation_pattern then 10 else 0) + (if c.self_critical_pattern then 5 else 0)

/-- Term 7: emptiness (long-term risk). -/
def riskEmptinessTerm (em : QMap) : ℚ :=
  if getD em "空虚感" > 3/5 then 10 else 0

/-- The accumulated `risk_score` of `_calculate_risk_level` (the
sequential `risk_score += ...` steps, summed). -/
def calcRiskScore (em : QMap) (slope : ℚ) (ctx : Option ConvContext) : ℚ :=
  riskSelfHarmTerm em + riskDespairTerm em + riskAgitationTerm em +
    riskSlopeTerm slope + riskCompoundTerm em + riskContextTerm ctx +
    riskEmptinessTerm em

/-- The final mapping of `_calculate_risk_level` from score to level. -/
def scoreToRiskLevel (risk_score : ℚ) : RiskLevel :=
  if risk_score ≥ 70 then RiskLevel.CRITICAL
  else if risk_score ≥ 50 then RiskLevel.HIGH
  else if risk_score ≥ 30 then RiskLevel.MEDIUM
  else RiskLevel.LOW

/-- The `_calculate_risk_level`. -/
def calcRiskLevel (em : QMap) (slope : ℚ) (ctx : Option ConvContext) : RiskLevel :=
  scoreToRiskLevel (calcRiskScore em slope ctx)

/-- The `_calculate_urgency_score`: the weighted accumulation.  The weights
dict maps 自伤冲动 ↦ 0.35, 绝望 ↦ 0.25, 激越 ↦ 0.15, 焦虑 ↦ 0.10,
悲伤 ↦ 0.10, slope ↦ 0.05, the slope entry contributing
`min(emotion_slope * 2, 1.0) * weight`; the result is `min(urgency, 1.0)`. -/
def calcUrgencyScore (em : QMap) (slope : ℚ) : ℚ :=
  let urgency :=
    getD em "自伤冲动" * (35/100) + getD em "绝望" * (25/100) +
    getD em "激越" * (15/100) + getD em "焦虑" * (1/10) +
    getD em "悲伤" * (1/10) + min (slope * 2) 1 * (5/100)
  min urgency 1

/-- The `_extract_trigger_signals`. -/
def extractTriggerSignals (em : QMap) (slope : ℚ) : QMap :=
  [("self_harm_impulse", getD em "自伤冲动"),
   ("despair_level", getD em "绝望"),
   ("agitation_level", getD em "激越"),
   ("emptiness_level", getD em "空虚感"),
   ("shame_level", getD em "羞愧"),
   ("emotion_slope", slope),
   ("negative_total",
     getD em "悲伤" + getD em "焦虑" + getD em "恐惧" + getD em "愤怒" + getD em "内疚")]

/-- The `_should_trigger_intervention`. -/
def shouldTriggerIntervention (risk_level : RiskLevel) (urgency_score : ℚ) : Bool :=
  if risk_level = RiskLevel.HIGH ∨ risk_level = RiskLevel.CRITICAL then true
  else if risk_level = RiskLevel.MEDIUM ∧ urgency_score > 3/5 then true
  else false

/-- The `InterventionTrigger` dataclass. -/
structure InterventionTrigger where
  triggered : Bool
  risk_level : RiskLevel
  emotion_slope : ℚ
  urgency_score : ℚ
  intervention_reason : String
  trigger_signals : QMap
deriving DecidableEq, Repr

/-- Stable insertion of `p` into a list already sorted descending by `f`
(later elements never overtake earlier ones with an equal key), modelling
Python `list.sort(key=..., reverse=True)` / `sorted(..., reverse=True)`. -/
def insertDesc {α : Type} (f : α → ℚ) (p : α) : List α → List α
  | [] => [p]
  | q :: rest => if f q ≥ f p then q :: insertDesc f p rest else p :: q :: rest

/-- Stable descending sort by key `f`. -/
def sortDescBy {α : Type} (f : α → ℚ) : List α → List α
  | [] => []
  | p :: rest => insertDesc f p (sortDescBy f rest)

/-- The `_generate_intervention_reason`.  A stable descending sort by value
picks the top-3 emotions; messages keep their fixed name parts with the
numeric interpolation elided. -/
def generateInterventionReason (em : QMap) (slope : ℚ) (risk_level : RiskLevel) : String :=
  let sorted := sortDescBy Prod.snd em
  let tops := (sorted.take 3).filter (fun p => p.2 > 2/5)
  let reasons := tops.map (fun p => p.1 ++ "(强度)")
  let reasons := reasons ++ (if slope > 1/5 then ["情绪快速恶化(斜率)"] else [])
  let reasons := reasons ++ ["风险等级: " ++
    (match risk_level with
     | .LOW => "LOW" | .MEDIUM => "MEDIUM" | .HIGH => "HIGH" | .CRITICAL => "CRITICAL")]
  String.intercalate "; " reasons

/-- The `evaluate_risk`.  The emotion-history append (`_record_emotion_history`,
an internal bounded buffer used only by baseline helpers) is a side effect
on engine state and does not influence the returned trigger; it is not
modelled. -/
def evaluateRisk (em : QMap) (slope : ℚ := 0) (ctx : Option ConvContext := none) :
    InterventionTrigger :=
  let risk_level := calcRiskLevel em slope ctx
  let urgency_score := calcUrgencyScore em slope
  let trigger_signals := extractTriggerSignals em slope
  let triggered := shouldTriggerIntervention risk_level urgency_score
  let reason := generateInterventionReason em slope risk_level
  { triggered := triggered
    risk_level := risk_level
    emotion_slope := slope
    urgency_score := urgency_score
    intervention_reason := reason
    trigger_signals := trigger_signals }

/-! ## `SkillMatcher` (`app/modules/dbt/services/skill_matcher.py`) -/

/-- The `ConditionOperator` enum (the `_operators` table keys). -/
inductive CondOp where
  | gt
  | ge
  | lt
  | le
  | eq
  | ne
  | inOp
  | notIn
  | containsOp
  | unknown
deriving DecidableEq, Repr

/-- The `_evaluate_condition` / the `_operators` lambdas, applied to a scalar
expected value, as in every rule condition: `in` is
`a in b if isinstance(b, (list, tuple)) else False`, hence `False` on a
scalar; `not_in` is symmetrically `True`; `contains` is
`b in a if isinstance(a, str) else False`, hence `False` on a float; an
unknown operator logs a warning and returns `False`. -/
def evalCondition (actual : ℚ) (op : CondOp) (expected : ℚ) : Bool :=
  match op with
  | .gt => decide (actual > expected)
  | .ge => decide (actual ≥ expected)
  | .lt => decide (actual < expected)
  | .le => decide (actual ≤ expected)
  | .eq => decide (actual = expected)
  | .ne => decide (actual ≠ expected)
  | .inOp => false
  | .notIn => true
  | .containsOp => false
  | .unknown => false

/-- One entry of `conditions["emotion_conditions"]` (defaults from the
`.get` calls in `_evaluate_rule`). -/
structure EmotionCond where
  emotion : String
  operator : CondOp := .ge
  value : ℚ := 1/2
deriving DecidableEq, Repr

/-- One entry of `conditions["trigger_signals"]`. -/
structure SignalCond where
  signal : String
  operator : CondOp := .ge
  value : ℚ := 3/10
deriving DecidableEq, Repr

/-- The `conditions["arousal"]` entry. -/
structure ArousalCond where
  operator : CondOp := .ge
  value : ℚ := 1/2
deriving DecidableEq, Repr

/-- The loosely-typed `conditions` dict of a rule, with each key optional;
`context_contains` and `risk_level` are kept post-normalisation (the code
wraps a bare string into a one-element list). -/
structure RuleConditions where
  emotion_conditions : Option (List EmotionCond) := none
  trigger_signals : Option (List SignalCond) := none
  arousal : Option ArousalCond := none
  context_contains : Option (List String) := none
  risk_level : Option (List String) := none
deriving DecidableEq, Repr

/-- The `SkillMatchingRule` DB row (primary-key `id` omitted: matching never
reads it).  `skill_ids = None` is modelled as the empty list, matching
`rule.skill_ids or []`. -/
structure SkillMatchingRule where
  rule_name : String
  priority : ℚ := 50
  conditions : RuleConditions := {}
  skill_ids : List Int := []
  module_id : Option Int := none
  is_active : Bool := true
deriving DecidableEq, Repr

/-- The `SkillStep` (post-parse: the dict defaults of `_skill_to_recommended`
are already applied). -/
structure SkillStep where
  step_number : Int := 0
  instruction : String := ""
  goal : String := ""
  prompt_hint : Option String := none
deriving DecidableEq, Repr

/-- The `DBTSkill` DB row.  `module_name` is `skill.module.name` when the
module relation resolves (`None` models a dangling relation).
`difficulty_level = 0` models a falsy (`None`/`0`) value under the
`if skill.difficulty_level:` check; real rows default to 1. -/
structure DBTSkill where
  id : Int
  module_id : Option Int := none
  name : String
  name_en : String
  module_name : Option String := none
  description : Option String := none
  steps : List SkillStep := []
  trigger_emotions : List String := []
  difficulty_level : Int := 1
  is_active : Bool := true
deriving DecidableEq, Repr

/-- The `DBTModule` DB row. -/
structure DBTModule where
  id : Int
  name : String
  name_en : String
  priority : Int := 0
deriving DecidableEq, Repr

/-- The `MatchContext` dataclass. -/
structure MatchContext where
  emotions : QMap
  arousal : ℚ
  trigger_signals : QMap
  context : String
  risk_level : String
  user_stability : ℚ := 1/2
  last_skill : Option String := none
deriving DecidableEq, Repr

/-- The `RuleMatchResult` dataclass.  `match_details` keeps the keys of the
`match_details` dict in insertion order (its values are only re-read via
those keys when building human-readable text). -/
structure RuleMatchResult where
  rule_name : String
  matched : Bool
  score : ℚ := 0
  skill_ids : List Int := []
  module_id : Option Int := none
  match_details : List String := []
deriving DecidableEq, Repr

/-- Accumulator threaded through `_evaluate_rule`: the running `matched`
flag, `total_score`, `condition_count` and `match_details` keys. -/
structure CondAcc where
  ok : Bool
  total : ℚ
  cnt : Nat
  details : List String
deriving DecidableEq, Repr

/-- The emotion-condition loop of `_evaluate_rule`: every condition is
evaluated (the loop has no early exit), a failing one clears `matched`,
a passing one adds the actual emotion value to the total. -/
def evalEmotionConds (ctx : MatchContext) : List EmotionCond → CondAcc
  | [] => ⟨true, 0, 0, []⟩
  | c :: rest =>
    let actual := getD ctx.emotions c.emotion
    let cond_matched := evalCondition actual c.operator c.value
    let r := evalEmotionConds ctx rest
    ⟨cond_matched && r.ok,
     (if cond_matched then actual else 0) + r.total,
     r.cnt + 1,
     (if cond_matched then ["emotion_" ++ c.emotion] else []) ++ r.details⟩

/-- The trigger-signal loop: passing conditions contribute `actual × 0.5`. -/
def evalSignalConds (ctx : MatchContext) : List SignalCond → CondAcc
  | [] => ⟨true, 0, 0, []⟩
  | c :: rest =>
    let actual := getD ctx.trigger_signals c.signal
    let cond_matched := evalCondition actual c.operator c.value
    let r := evalSignalConds ctx rest
    ⟨cond_matched && r.ok,
     (if cond_matched then actual * (1/2) else 0) + r.total,
     r.cnt + 1,
     (if cond_matched then ["signal_" ++ c.signal] else []) ++ r.details⟩

/-- Sequencing of two accumulators (second group appended after a first). -/
def seqAcc (a b : CondAcc) : CondAcc :=
  ⟨a.ok && b.ok, a.total + b.total, a.cnt + b.cnt, a.details ++ b.details⟩

/-- The `and matched` guard of `_evaluate_rule`: a later condition group
only runs while `matched` still holds; otherwise the state is unchanged. -/
def gateAcc (a g : CondAcc) : CondAcc :=
  if a.ok then seqAcc a g else a

/-- A group absent from the `conditions` dict contributes nothing. -/
def optAcc {α : Type} (f : α → CondAcc) : Option α → CondAcc
  | none => ⟨true, 0, 0, []⟩
  | some x => f x

/-- The tiered risk-level bonus `{"LOW": 0.1, "MEDIUM": 0.3, "HIGH": 0.6,
"CRITICAL": 0.9}` with `.get(..., 0.1)`. -/
def riskTierScore (lvl : String) : ℚ :=
  if lvl = "LOW" then 1/10
  else if lvl = "MEDIUM" then 3/10
  else if lvl = "HIGH" then 3/5
  else if lvl = "CRITICAL" then 9/10
  else 1/10

/-- The arousal condition block of `_evaluate_rule` as a standalone
accumulator: the single condition contributes `context.arousal × 0.3`. -/
def arousalAcc (ctx : MatchContext) (c : ArousalCond) : CondAcc :=
  let cond_matched := evalCondition ctx.arousal c.operator c.value
  ⟨cond_matched,
   if cond_matched then ctx.arousal * (3/10) else 0,
   1,
   if cond_matched then ["arousal"] else []⟩

/-- The `context_contains` block: any keyword occurring as a substring of
the free-text context contributes a flat 0.2. -/
def contextAcc (ctx : MatchContext) (keywords : List String) : CondAcc :=
  let context_matched := keywords.any (fun kw => strHas ctx.context kw)
  ⟨context_matched,
   if context_matched then 1/5 else 0,
   1,
   if context_matched then ["context"] else []⟩

/-- The `risk_level` allow-list block with its tiered bonus. -/
def riskAcc (ctx : MatchContext) (required_levels : List String) : CondAcc :=
  let lvl_ok := required_levels.contains ctx.risk_level
  ⟨lvl_ok,
   if lvl_ok then riskTierScore ctx.risk_level else 0,
   1,
   if lvl_ok then ["risk_level"] else []⟩

/-- The accumulator state at the end of `_evaluate_rule`'s five
condition blocks: the emotion group always runs in full; each later
group runs only while `matched` still holds (the `and matched` guards,
`gateAcc`), and inside a group a failing predicate clears `matched`
while passing predicates keep contributing. -/
def ruleAcc (rule : SkillMatchingRule) (ctx : MatchContext) : CondAcc :=
  gateAcc (gateAcc (gateAcc (gateAcc
    (optAcc (evalEmotionConds ctx) rule.conditions.emotion_conditions)
    (optAcc (evalSignalConds ctx) rule.conditions.trigger_signals))
    (optAcc (arousalAcc ctx) rule.conditions.arousal))
    (optAcc (contextAcc ctx) rule.conditions.context_contains))
    (optAcc (riskAcc ctx) rule.conditions.risk_level)

/-- The `SkillMatcher._evaluate_rule`.  The final score is
`total_score / max(condition_count, 1) + rule.priority / 1000`. -/
def evalRule (rule : SkillMatchingRule) (ctx : MatchContext) : RuleMatchResult :=
  let s5 := ruleAcc rule ctx
  let avg_score := s5.total / ((max s5.cnt 1 : ℕ) : ℚ)
  let final_score := avg_score + rule.priority / 1000
  { rule_name := rule.rule_name
    matched := s5.ok
    score := final_score
    skill_ids := rule.skill_ids
    module_id := rule.module_id
    match_details := s5.details }

/-! ### Repository (`app/modules/dbt/repositories/skill_repository.py`)

A database snapshot is a triple of row lists in table order.  Primary
keys are unique in a real database; theorems that rely on this state it
as an explicit hypothesis. -/

/-- A consistent read snapshot of the rule/skill repository. -/
structure RepoState where
  modules : List DBTModule := []
  skills : List DBTSkill := []
  rules : List SkillMatchingRule := []

/-- The `get_all_rules(active_only=True)`: active rules ordered by priority
descending (ties keep table order, one admissible SQL result order). -/
def getAllRules (repo : RepoState) : List SkillMatchingRule :=
  sortDescBy (fun r => r.priority) (repo.rules.filter (fun r => r.is_active))

/-- The `get_all_skills(active_only=True)`. -/
def getAllSkills (repo : RepoState) : List DBTSkill :=
  repo.skills.filter (fun s => s.is_active)

/-- The `get_skills_by_ids`: rows whose id is in the list, in table order. -/
def getSkillsByIds (repo : RepoState) (skill_ids : List Int) : List DBTSkill :=
  if skill_ids = [] then []
  else repo.skills.filter (fun s => skill_ids.contains s.id)

/-- The `get_skills_by_emotion`: active skills whose `trigger_emotions`
contain the emotion. -/
def getSkillsByEmotion (repo : RepoState) (emotion : String) : List DBTSkill :=
  (getAllSkills repo).filter (fun s => s.trigger_emotions.contains emotion)

/-- The `get_skill_by_name` (bilingual lookup; assumes at most one match, as
`scalar_one_or_none` would raise otherwise). -/
def getSkillByName (repo : RepoState) (name : String) : Option DBTSkill :=
  repo.skills.find? (fun s => s.name = name ∨ s.name_en = name)

/-- The `get_module_by_id`. -/
def getModuleById (repo : RepoState) (module_id : Int) : Option DBTModule :=
  repo.modules.find? (fun m => m.id = module_id)

/-- The `get_skills_by_module(module_id, active_only=True)`. -/
def getSkillsByModule (repo : RepoState) (module_id : Int) : List DBTSkill :=
  repo.skills.filter (fun s => s.module_id = some module_id ∧ s.is_active)

/-! ### Request/response schemas (`app/modules/dbt/models/schemas.py`) -/

/-- The `TriggerSignals` input schema (all fields default 0). -/
structure TriggerSignalsIn where
  self_harm_impulse : ℚ := 0
  despair_level : ℚ := 0
  agitation_level : ℚ := 0
  emptiness_level : ℚ := 0
  shame_level : ℚ := 0
  emotion_slope : ℚ := 0
  negative_total : ℚ := 0
deriving DecidableEq, Repr

/-- The `RiskLevel.value` of the str-enum. -/
def riskLevelValue : RiskLevel → String
  | .LOW => "LOW"
  | .MEDIUM => "MEDIUM"
  | .HIGH => "HIGH"
  | .CRITICAL => "CRITICAL"

/-- The `InterventionAssessment` input schema. -/
structure InterventionAssessment where
  triggered : Bool
  risk_level : RiskLevel
  urgency_score : ℚ
  trigger_signals : TriggerSignalsIn := {}
  intervention_reason : String := ""
deriving DecidableEq, Repr

/-- The `EmotionInput` schema. -/
structure EmotionInput where
  emotions : QMap
  arousal : ℚ
  confidence : ℚ := 1
deriving DecidableEq, Repr

/-- The `UserProfile` schema (only the field the matcher reads). -/
structure UserProfile where
  user_id : String
  stability_score : ℚ := 1/2
deriving DecidableEq, Repr

/-- The `AgentContext` schema (only the field the matcher reads). -/
structure AgentContext where
  dialogue_round : Int := 1
  last_skill_used : Option String := none
deriving DecidableEq, Repr

/-- The `RecommendRequest` schema. -/
structure RecommendRequest where
  emotion_input : EmotionInput
  intervention_assessment : InterventionAssessment
  user_profile : Option UserProfile := none
  agent_context : Option AgentContext := none
  context : String := ""
deriving DecidableEq, Repr

/-- The `RecommendedSkill` output schema. -/
structure RecommendedSkill where
  skill_id : Int
  skill_name : String
  skill_name_en : String
  module_name : String
  description : String
  steps : List SkillStep := []
  match_score : ℚ
  match_reason : String
deriving DecidableEq, Repr

/-- The `MatchResult` output schema. -/
structure MatchResult where
  module : String
  skills : List RecommendedSkill
  fallbacks : List String
  matched_rules : List String := []
deriving DecidableEq, Repr

/-! ### The match pipeline -/

/-- The `SkillMatcher._build_context`. -/
def buildContext (request : RecommendRequest) : MatchContext :=
  let ts := request.intervention_assessment.trigger_signals
  { emotions := request.emotion_input.emotions
    arousal := request.emotion_input.arousal
    trigger_signals :=
      [("self_harm_impulse", ts.self_harm_impulse), ("despair_level", ts.despair_level),
       ("agitation_level", ts.agitation_level), ("emptiness_level", ts.emptiness_level),
       ("shame_level", ts.shame_level), ("emotion_slope", ts.emotion_slope),
       ("negative_total", ts.negative_total)]
    context := request.context
    risk_level := riskLevelValue request.intervention_assessment.risk_level
    user_stability :=
      match request.user_profile with
      | some up => up.stability_score
      | none => 1/2
    last_skill :=
      match request.agent_context with
      | some ac => ac.last_skill_used
      | none => none }

/-- Python `max(items, key=value)`: the first pair of maximal value. -/
def topPair (l : QMap) : Option (String × ℚ) :=
  l.foldl (fun acc p =>
    match acc with
    | none => some p
    | some q => if p.2 > q.2 then some p else some q) none

/-- The `SkillMatcher._fallback_emotion_match`. -/
def fallbackEmotionMatch (repo : RepoState) (ctx : MatchContext) : List RuleMatchResult :=
  match topPair ctx.emotions with
  | none => []
  | some (emotion_name, emotion_value) =>
    if emotion_value < 3/10 then []
    else
      match getSkillsByEmotion repo emotion_name with
      | [] => []
      | s0 :: _ =>
        [{ rule_name := "emotion_fallback_" ++ emotion_name
           matched := true
           score := emotion_value
           skill_ids := ((getSkillsByEmotion repo emotion_name).take 2).map (fun s => s.id)
           module_id := s0.module_id
           match_details := ["primary_emotion", "value"] }]

/-- The `dict.fromkeys` de-duplication: keep the first occurrence of each id. -/
def dedupFirstAux (seen : List Int) : List Int → List Int
  | [] => []
  | x :: xs => if x ∈ seen then dedupFirstAux seen xs else x :: dedupFirstAux (x :: seen) xs

/-- The `list(dict.fromkeys(all_skill_ids))`. -/
def dedupFirst (l : List Int) : List Int :=
  dedupFirstAux [] l

/-- The `base_score` seed of `_calculate_skill_score`: 0.5, raised to the
score of the first rule result whose `skill_ids` contain the skill. -/
def firstRuleScore (skill_id : Int) (rule_results : List RuleMatchResult) : ℚ :=
  match rule_results.find? (fun r => r.skill_ids.contains skill_id) with
  | some r => max (1/2) r.score
  | none => 1/2

/-- The `SkillMatcher._calculate_skill_score`. -/
def calcSkillScore (skill : DBTSkill) (ctx : MatchContext)
    (rule_results : List RuleMatchResult) : ℚ :=
  let base := firstRuleScore skill.id rule_results
  let base := base +
    ((skill.trigger_emotions.filter (fun e => (getv ctx.emotions e).isSome)).map
      (fun e => getD ctx.emotions e * (1/10))).sum
  let base :=
    if skill.difficulty_level ≠ 0 then
      if ctx.user_stability < 2/5 ∧ skill.difficulty_level > 1 then
        base - (1/10) * ((skill.difficulty_level : ℚ) - 1)
      else if ctx.user_stability > 7/10 ∧ skill.difficulty_level > 1 then
        base + (5/100) * ((skill.difficulty_level : ℚ))
      else base
    else base
  min 1 (max 0 base)

/-- The `signal_names` table of `_generate_match_reason`. -/
def signalCn (s : String) : String :=
  if s = "agitation_level" then "激越状态"
  else if s = "despair_level" then "绝望感"
  else if s = "self_harm_impulse" then "冲动倾向"
  else if s = "emptiness_level" then "空虚感"
  else if s = "shame_level" then "羞愧感"
  else s

/-- The `SkillMatcher._generate_match_reason` (numeric interpolation elided;
the `"emotion_" in str(...)` guards only gate loops that re-filter on the
same key shapes, so filtering on key shape is equivalent). -/
def matchReasonFrom (skill : DBTSkill) (ctx : MatchContext)
    (rule_results : List RuleMatchResult) : String :=
  let fromRule :=
    match rule_results.find? (fun r => r.skill_ids.contains skill.id) with
    | none => []
    | some r =>
      ((r.match_details.filter (fun k => charsStart "emotion_".toList k.toList)).map
        (fun k => (k.drop 8) ++ "情绪较强")) ++
      ((r.match_details.filter (fun k => charsStart "signal_".toList k.toList)).map
        (fun k => signalCn (k.drop 7) ++ "明显"))
  let reasons := fromRule ++ (if ctx.arousal > 3/5 then ["情绪唤醒度较高"] else [])
  let reasons := reasons ++ (if ctx.context ≠ "" then ["情境: " ++ ctx.context] else [])
  if reasons ≠ [] then String.intercalate "；" (reasons.take 3)
  else "基于当前情绪状态推荐"

/-- The `SkillMatcher._skill_to_recommended`. -/
def skillToRecommended (skill : DBTSkill) (match_score : ℚ) (match_reason : String) :
    RecommendedSkill :=
  { skill_id := skill.id
    skill_name := skill.name
    skill_name_en := skill.name_en
    module_name := skill.module_name.getD ""
    description := skill.description.getD ""
    steps := skill.steps
    match_score := match_score
    match_reason := match_reason }

/-- The universal padding step of `_get_fallback_skills`. -/
def padUniversal (fbs : List String) : List String :=
  if fbs.length < 2 then
    ["深呼吸", "正念观察", "自我安抚"].foldl (fun acc n =>
      if acc.length ≥ 2 then acc
      else if acc.contains n then acc
      else acc ++ [n]) fbs
  else fbs

/-- The `SkillMatcher._get_fallback_skills` (ids are positive in real rows,
so `if module_id:` is key presence). -/
def getFallbackSkills (repo : RepoState) (recommended : List RecommendedSkill)
    (module_id : Option Int) : List String :=
  let recommended_ids := recommended.map (fun s => s.skill_id)
  let fb :=
    match module_id with
    | none => []
    | some mid =>
      (((getSkillsByModule repo mid).filter
        (fun s => ¬ recommended_ids.contains s.id)).map (fun s => s.name)).take 2
  padUniversal fb

/-- The per-rule evaluation loop of `match`: only matched results are
kept (`if result.matched: rule_results.append(result)`). -/
def matchedRuleResults (rules : List SkillMatchingRule) (ctx : MatchContext) :
    List RuleMatchResult :=
  (rules.map (fun r => evalRule r ctx)).filter (fun r => r.matched)

/-- First rule result carrying a (truthy) module id. -/
def findFirstModuleId (rs : List RuleMatchResult) : Option Int :=
  rs.findSome? (fun r => r.module_id)

/-- The rule-result list `match` works with: rule evaluation, the
emotion fallback when nothing matched, then the stable sort by score
descending. -/
def pipelineRuleResults (repo : RepoState) (ctx : MatchContext) : List RuleMatchResult :=
  let rule_results := matchedRuleResults (getAllRules repo) ctx
  let rule_results := if rule_results = [] then fallbackEmotionMatch repo ctx else rule_results
  sortDescBy (fun r => r.score) rule_results

/-- The `list(dict.fromkeys(all_skill_ids))[:max_skills]`: concatenated skill
ids of the sorted results, first-occurrence de-duplicated, truncated. -/
def selectedSkillIds (rule_results : List RuleMatchResult) (max_skills : Nat) : List Int :=
  (dedupFirst ((rule_results.map (fun r => r.skill_ids)).flatten)).take max_skills

/-- The `SkillMatcher.match`. -/
def matchSkills (repo : RepoState) (request : RecommendRequest)
    (max_skills : Nat := 2) : MatchResult :=
  let ctx := buildContext request
  let rule_results := pipelineRuleResults repo ctx
  let matched_rules := rule_results.map (fun r => r.rule_name)
  let module_id := findFirstModuleId rule_results
  let unique_skill_ids := selectedSkillIds rule_results max_skills
  let skills := getSkillsByIds repo unique_skill_ids
  let recommended := skills.map (fun s =>
    skillToRecommended s (calcSkillScore s ctx rule_results) (matchReasonFrom s ctx rule_results))
  let module_name :=
    match recommended with
    | r :: _ => r.module_name
    | [] =>
      match module_id with
      | some mid =>
        match getModuleById repo mid with
        | some m => m.name
        | none => "痛苦耐受"
      | none => "痛苦耐受"
  { module := module_name
    skills := recommended
    fallbacks := getFallbackSkills repo recommended module_id
    matched_rules := matched_rules }

/-! ## `LLMService` (`app/modules/dbt/services/llm_service.py`)

Each remote chat-completion call is modelled as an `Except Unit String`:
`Except.ok s` is an HTTP success whose (already `.strip()`-ed) message
content is `s`; `Except.error ()` is any exception the `try/except`
swallows (timeout, network failure, bad payload).  The service methods
below embed the code around those calls. -/

/-- Python `.strip()` (leading/trailing whitespace removed). -/
def pyStrip (s : String) : String :=
  String.mk (((s.toList.dropWhile Char.isWhitespace).reverse.dropWhile
    Char.isWhitespace).reverse)

/-- The `LLMService._parse_skill_names`. -/
def parseSkillNames (content : String) : List String :=
  let content := pyStrip content
  let skills :=
    match [",", "，", "、", "\n"].find? (fun sep => strHas content sep) with
    | some sep => (content.splitOn sep).map pyStrip
    | none => [content]
  ((skills.filter (fun s => s ≠ "" ∧ s.length < 20)).take 2)

/-- The `LLMService._get_fallback_reason` (used when the reason call fails;
its output depends only on the matched skills). -/
def fallbackReason (matched_skills : List RecommendedSkill) : String :=
  match matched_skills with
  | [] => "让我们一起试试一些放松技巧，帮助你感觉好一些。"
  | skill :: _ =>
    if skill.module_name = "痛苦耐受" then
      "我理解你现在的感受可能很强烈。" ++ skill.skill_name ++ "可以帮助你度过这个困难时刻，让我们一起来试试。"
    else if skill.module_name = "情绪调节" then
      "情绪有时候会让我们看不清全貌。" ++ skill.skill_name ++ "可以帮助你更好地理解和管理这些感受。"
    else if skill.module_name = "人际效能" then
      "人际关系有时候确实很有挑战。" ++ skill.skill_name ++ "可以帮助你更有效地表达自己的需求。"
    else if skill.module_name = "正念" then
      "让我们暂停一下，关注当下。" ++ skill.skill_name ++ "可以帮助你找到内心的平静。"
    else
      "我建议我们试试" ++ skill.skill_name ++ "，这可能会帮助你感觉好一些。"

/-- The `LLMService.generate_recommendation_reason`: empty skill list short-
circuits; otherwise the LLM response content is returned on success and
the deterministic fallback on any exception. -/
def generateRecommendationReason (matched_skills : List RecommendedSkill)
    (llm : Except Unit String) : String :=
  if matched_skills = [] then "基于当前状态，建议尝试一些放松技巧。"
  else
    match llm with
    | .ok content => content
    | .error _ => fallbackReason matched_skills

/-- The `LLMService.handle_edge_case`: parsed names on success, the fixed
default pair on any exception. -/
def handleEdgeCaseNames (llm : Except Unit String) : List String :=
  match llm with
  | .ok content => parseSkillNames content
  | .error _ => ["深呼吸", "正念观察"]

/-! ## `RecommendationEngine`
(`app/modules/dbt/services/recommendation_engine.py`) -/

/-- The `RecommendationConfig` (`config.py` defaults). -/
structure RecommendationSettings where
  max_skills_per_recommendation : Nat := 2
  min_match_score : ℚ := 3/10
  enable_llm_fallback : Bool := true
  enable_llm_reason : Bool := true
deriving DecidableEq, Repr

/-- The outcomes of the two LLM calls a single `recommend` run may make. -/
structure LLMOutcome where
  reason_response : Except Unit String := Except.error ()
  edge_response : Except Unit String := Except.error ()
deriving Repr

/-- The `GuidanceApproach` enum. -/
inductive GuidanceApproach where
  | EMPATHY_FIRST
  | SKILL_ORIENTED
  | SCENARIO_PRACTICE
deriving DecidableEq, Repr

/-- The `GuidanceIntensity` enum. -/
inductive GuidanceIntensity where
  | LIGHT_REMINDER
  | STANDARD_TRAINING
  | CRISIS_PRIORITY
deriving DecidableEq, Repr

/-- The `GuidanceTone` enum. -/
inductive GuidanceTone where
  | WARM
  | CALM
  | ENCOURAGING
deriving DecidableEq, Repr

/-- The `GuidanceStrategy` output schema. -/
structure GuidanceStrategy where
  approach : GuidanceApproach
  intensity : GuidanceIntensity
  tone : GuidanceTone
  key_points : List String := []
deriving DecidableEq, Repr

/-- The `metadata` dict assembled in step 5 of `recommend`. -/
structure RecMetadata where
  matched_rules : List String
  risk_level : String
  urgency_score : ℚ
deriving DecidableEq, Repr

/-- The `DBTRecommendation` output schema. -/
structure DBTRecommendation where
  recommended_module : String
  recommended_skills : List RecommendedSkill
  recommendation_reason : String
  guidance_strategy : GuidanceStrategy
  fallback_skills : List String := []
  metadata : RecMetadata
deriving DecidableEq, Repr

/-- The `RecommendationEngine._handle_edge_case`: resolve the LLM-suggested
names bilingually; names without a matching skill are skipped; the module
name is the last resolved skill's module (default 痛苦耐受). -/
def handleEdgeCase (repo : RepoState) (llm : Except Unit String) : MatchResult :=
  let skill_names := handleEdgeCaseNames llm
  if skill_names = [] then
    { module := "痛苦耐受", skills := [], fallbacks := [] }
  else
    let found := skill_names.filterMap (fun n => getSkillByName repo n)
    let skills := found.map (fun skill =>
      ({ skill_id := skill.id
         skill_name := skill.name
         skill_name_en := skill.name_en
         module_name := skill.module_name.getD ""
         description := skill.description.getD ""
         steps := []
         match_score := 1/2
         match_reason := "LLM推荐" } : RecommendedSkill))
    let module_name := found.foldl (fun acc skill =>
      match skill.module_name with
      | some mn => mn
      | none => acc) "痛苦耐受"
    { module := module_name
      skills := skills
      fallbacks := []
      matched_rules := ["llm_edge_case"] }

/-- The `RecommendationEngine._get_default_recommendation`. -/
def getDefaultRecommendation (repo : RepoState) (request : RecommendRequest) :
    MatchResult :=
  let risk_level := request.intervention_assessment.risk_level
  let pick :=
    if risk_level = RiskLevel.HIGH ∨ risk_level = RiskLevel.CRITICAL then
      ("TIPP", "痛苦耐受")
    else if request.emotion_input.arousal > 3/5 then ("TIPP", "痛苦耐受")
    else ("观察", "正念")
  match getSkillByName repo pick.1 with
  | some skill =>
    { module := pick.2
      skills := [{ skill_id := skill.id
                   skill_name := skill.name
                   skill_name_en := skill.name_en
                   module_name := skill.module_name.getD pick.2
                   description := skill.description.getD ""
                   steps := []
                   match_score := 3/10
                   match_reason := "默认推荐" }]
      fallbacks := ["深呼吸", "自我安抚"]
      matched_rules := ["default_fallback"] }
  | none =>
    { module := pick.2
      skills := []
      fallbacks := ["深呼吸", "正念观察"]
      matched_rules := [] }

/-- The static `skill_guidance` table of `_generate_key_points`. -/
def skillGuidanceTable (skill_name : String) : Option (List String) :=
  if skill_name = "TIPP" then some ["引导用户感受身体状态", "一步一步引导TIPP技能"]
  else if skill_name = "STOP" then some ["帮助用户暂停当前行动", "引导观察和思考"]
  else if skill_name = "ACCEPTS" then some ["提供注意力转移的选项", "鼓励尝试不同的活动"]
  else if skill_name = "检查事实" then some ["帮助用户分析情境", "区分事实和解读"]
  else if skill_name = "彻底接纳" then some ["认可用户的痛苦", "引导接受不能改变的现实"]
  else if skill_name = "观察" then some ["引导关注当下", "不评判地觉察"]
  else if skill_name = "DEAR MAN" then some ["帮助明确需求", "练习有效表达"]
  else none

/-- The `RecommendationEngine._generate_key_points`. -/
def generateKeyPoints (request : RecommendRequest) (match_result : MatchResult)
    (approach : GuidanceApproach) : List String :=
  let points :=
    if approach = GuidanceApproach.EMPATHY_FIRST then
      ["先认可用户的情绪体验", "表达理解和支持"]
    else []
  let points := points ++
    (match match_result.skills with
     | [] => []
     | skill :: _ =>
       match skillGuidanceTable skill.skill_name with
       | some g => g
       | none => ["一步一步引导" ++ skill.skill_name ++ "技能"])
  let risk_level := request.intervention_assessment.risk_level
  let points :=
    if risk_level = RiskLevel.CRITICAL then "确认用户安全" :: points
    else if risk_level = RiskLevel.HIGH then points ++ ["持续关注用户状态"]
    else points
  points.take 5

/-- The `RecommendationEngine._determine_guidance_strategy`. -/
def determineGuidanceStrategy (request : RecommendRequest)
    (match_result : MatchResult) : GuidanceStrategy :=
  let risk_level := request.intervention_assessment.risk_level
  let urgency := request.intervention_assessment.urgency_score
  let arousal := request.emotion_input.arousal
  let approach :=
    if risk_level = RiskLevel.HIGH ∨ risk_level = RiskLevel.CRITICAL then
      GuidanceApproach.EMPATHY_FIRST
    else if urgency > 7/10 then GuidanceApproach.SKILL_ORIENTED
    else GuidanceApproach.EMPATHY_FIRST
  let intensity :=
    if risk_level = RiskLevel.CRITICAL then GuidanceIntensity.CRISIS_PRIORITY
    else if risk_level = RiskLevel.HIGH ∨ urgency > 3/5 then
      GuidanceIntensity.STANDARD_TRAINING
    else GuidanceIntensity.LIGHT_REMINDER
  let tone :=
    if arousal > 7/10 then GuidanceTone.CALM
    else if risk_level = RiskLevel.HIGH ∨ risk_level = RiskLevel.CRITICAL then
      GuidanceTone.WARM
    else GuidanceTone.ENCOURAGING
  { approach := approach
    intensity := intensity
    tone := tone
    key_points := generateKeyPoints request match_result approach }

/-- The `RecommendationEngine._get_simple_reason`. -/
def getSimpleReason (skills : List RecommendedSkill) : String :=
  if skills = [] then "建议尝试一些放松技巧来帮助你感觉好一些。"
  else
    "基于当前状态，推荐使用" ++
      String.intercalate "、" (skills.map (fun s => s.skill_name)) ++
      "技能来帮助你调节情绪。"

/-- The `RecommendationEngine.recommend`: rule matching, then the LLM
edge-case stage (when enabled and empty), then the deterministic default,
then reason generation (LLM or template), strategy derivation and
assembly.  Totality of this definition is the embedding of the
never-raises boundary: every fallible external call is already handled
inside the stages above. -/
def recommend (settings : RecommendationSettings) (repo : RepoState)
    (request : RecommendRequest) (llm : LLMOutcome) : DBTRecommendation :=
  let match_result := matchSkills repo request settings.max_skills_per_recommendation
  let match_result :=
    if match_result.skills = [] ∧ settings.enable_llm_fallback then
      handleEdgeCase repo llm.edge_response
    else match_result
  let match_result :=
    if match_result.skills = [] then getDefaultRecommendation repo request
    else match_result
  let reason :=
    if settings.enable_llm_reason then
      generateRecommendationReason match_result.skills llm.reason_response
    else getSimpleReason match_result.skills
  let strategy := determineGuidanceStrategy request match_result
  { recommended_module := match_result.module
    recommended_skills := match_result.skills
    recommendation_reason := reason
    guidance_strategy := strategy
    fallback_skills := match_result.fallbacks
    metadata := { matched_rules := match_result.matched_rules
                  risk_level := riskLevelValue request.intervention_assessment.risk_level
                  urgency_score := request.intervention_assessment.urgency_score } }

/-! ## Spec-side definitions

These definitions are written from the specification's sentences (not
from the source) and are compared against the source embedding in the
claim theorems. -/

/-- The §4.1 weighted sum the spec states for the urgency score, written
from the spec sentence. -/
def urgencyWeightedSum (em : QMap) (slope : ℚ) : ℚ :=
  (35/100) * getD em "自伤冲动" + (25/100) * getD em "绝望" +
  (15/100) * getD em "激越" + (1/10) * getD em "焦虑" +
  (1/10) * getD em "悲伤" + (5/100) * min (2 * slope) 1

/-- The compound negative-emotion sum the code actually takes: sadness,
anxiety, fear, **shame**, guilt. -/
def compoundNegativeSum (em : QMap) : ℚ :=
  getD em "悲伤" + getD em "焦虑" + getD em "恐惧" + getD em "羞愧" + getD em "内疚"

/-- Claim C7: every predicate of the rule is satisfied in the context
(all groups AND-ed, absent groups vacuous). -/
def allCondsHold (rule : SkillMatchingRule) (ctx : MatchContext) : Bool :=
  (match rule.conditions.emotion_conditions with
   | none => true
   | some l => l.all (fun c => evalCondition (getD ctx.emotions c.emotion) c.operator c.value)) &&
  (match rule.conditions.trigger_signals with
   | none => true
   | some l => l.all (fun c => evalCondition (getD ctx.trigger_signals c.signal) c.operator c.value)) &&
  (match rule.conditions.arousal with
   | none => true
   | some c => evalCondition ctx.arousal c.operator c.value) &&
  (match rule.conditions.context_contains with
   | none => true
   | some kws => kws.any (fun kw => strHas ctx.context kw)) &&
  (match rule.conditions.risk_level with
   | none => true
   | some lvls => lvls.contains ctx.risk_level)

/-- Claim C7: the number of conditions a fully evaluated rule counts. -/
def specCondCount (rule : SkillMatchingRule) : Nat :=
  (match rule.conditions.emotion_conditions with
   | none => 0
   | some l => l.length) +
  (match rule.conditions.trigger_signals with
   | none => 0
   | some l => l.length) +
  (match rule.conditions.arousal with
   | none => 0
   | some _ => 1) +
  (match rule.conditions.context_contains with
   | none => 0
   | some _ => 1) +
  (match rule.conditions.risk_level with
   | none => 0
   | some _ => 1)

/-- Claim C7: the satisfied-condition contribution sum of a rule all of
whose predicates hold — emotion conditions contribute the actual emotion
value, trigger-signal conditions the actual value × 0.5, the arousal
condition arousal × 0.3, a context match a flat 0.2, and a risk-level
match the tier value. -/
def specCondTotal (rule : SkillMatchingRule) (ctx : MatchContext) : ℚ :=
  (match rule.conditions.emotion_conditions with
   | none => 0
   | some l => (l.map (fun c => getD ctx.emotions c.emotion)).sum) +
  (match rule.conditions.trigger_signals with
   | none => 0
   | some l => (l.map (fun c => getD ctx.trigger_signals c.signal * (1/2))).sum) +
  (match rule.conditions.arousal with
   | none => 0
   | some _ => ctx.arousal * (3/10)) +
  (match rule.conditions.context_contains with
   | none => 0
   | some _ => 1/5) +
  (match rule.conditions.risk_level with
   | none => 0
   | some _ => riskTierScore ctx.risk_level)

/-- A concrete rule (the `high_arousal_anxiety` test rule of
`skill_matcher.py`) used to exercise the rule-score formula. -/
def sampleRule : SkillMatchingRule :=
  { rule_name := "high_arousal_anxiety"
    priority := 100
    conditions :=
      { emotion_conditions := some [{ emotion := "焦虑", operator := .ge, value := 1/2 }]
        trigger_signals := some [{ signal := "agitation_level", operator := .ge, value := 2/5 }] }
    skill_ids := [1]
    module_id := some 1 }

/-- A concrete match context (scenario B of the spec). -/
def sampleCtx : MatchContext :=
  { emotions := [("焦虑", 7/10), ("悲伤", 1/5)]
    arousal := 4/5
    trigger_signals := [("agitation_level", 1/2)]
    context := "学业压力"
    risk_level := "MEDIUM" }

/-- A repository with one skill, no rules: `match` can only succeed
through the emotion fallback. -/
def fallbackRepo : RepoState :=
  { skills := [{ id := 1, module_id := some 1, name := "TIPP", name_en := "TIPP",
                 module_name := some "痛苦耐受", description := some "快速降低情绪强度",
                 trigger_emotions := ["焦虑"] }] }

/-- A request with a single strong anxiety emotion. -/
def anxiousRequest : RecommendRequest :=
  { emotion_input := { emotions := [("焦虑", 7/10)], arousal := 1/2 }
    intervention_assessment :=
      { triggered := false, risk_level := .LOW, urgency_score := 1/5 } }

/-! ## Shared lemmas -/

/-- A successful lookup returns an actual binding of the list. -/
theorem getv_mem : ∀ {m : QMap} {k : String} {v : ℚ}, getv m k = some v → (k, v) ∈ m
  | [], _, _, h => by simp [getv] at h
  | (k', v') :: rest, k, v, h => by
    by_cases hk : k' = k
    · subst hk
      have hv : v' = v := by simpa [getv] using h
      subst hv
      exact List.mem_cons_self _ _
    · have hrest : getv rest k = some v := by simpa [getv, hk] using h
      exact List.mem_cons_of_mem _ (getv_mem hrest)

/-- Values of a map with non-negative entries are non-negative with the
default 0. -/
theorem getD_nonneg {m : QMap} (h : ∀ p ∈ m, 0 ≤ p.2) (k : String) : 0 ≤ getD m k := by
  unfold getD getDef
  cases hv : getv m k with
  | none => simp
  | some v => simpa using h (k, v) (getv_mem hv)

/-- Lookup skips a fresh binding with a different key. -/
theorem getD_cons_ne (a b : String) (hk : b ≠ a) (v : ℚ) (m : QMap) :
    getD ((a, v) :: m) b = getD m b := by
  simp [getD, getDef, getv, Ne.symm hk]

/-- The `valuesMax` dominates every value bound in the map. -/
theorem valuesMax_ge : ∀ {m : QMap} {p : String × ℚ}, p ∈ m → p.2 ≤ valuesMax m
  | [], _, h => by simp at h
  | [x], p, h => by
    rw [List.mem_singleton] at h
    subst h
    simp [valuesMax]
  | x :: y :: rest, p, h => by
    rcases List.mem_cons.mp h with h | h
    · subst h
      exact le_max_left _ _
    · exact le_trans (valuesMax_ge h) (le_max_right _ _)

/-- A non-empty string stays non-empty after appending on the right. -/
theorem append_ne_empty_left {a : String} (b : String) (h : a ≠ "") : a ++ b ≠ "" := by
  intro hab
  apply h
  have hlen : (a ++ b).length = 0 := by rw [hab]; rfl
  rw [String.length_append] at hlen
  have : a.length = 0 := by omega
  cases a with
  | mk data =>
    cases data with
    | nil => rfl
    | cons c cs => simp [String.length, List.length] at this

/-- The emotion loop evaluates every condition: its `matched` flag is
the conjunction of the individual predicates. -/
theorem evalEmotionConds_ok (ctx : MatchContext) (l : List EmotionCond) :
    (evalEmotionConds ctx l).ok =
      l.all (fun c => evalCondition (getD ctx.emotions c.emotion) c.operator c.value) := by
  induction l with
  | nil => rfl
  | cons c rest ih => simp [evalEmotionConds, ih]

/-- The emotion loop counts every condition. -/
theorem evalEmotionConds_cnt (ctx : MatchContext) (l : List EmotionCond) :
    (evalEmotionConds ctx l).cnt = l.length := by
  induction l with
  | nil => rfl
  | cons c rest ih => simp [evalEmotionConds, ih]

/-- When every emotion condition passes, the group total is the sum of
the actual emotion values. -/
theorem evalEmotionConds_total (ctx : MatchContext) (l : List EmotionCond)
    (h : (evalEmotionConds ctx l).ok = true) :
    (evalEmotionConds ctx l).total = (l.map (fun c => getD ctx.emotions c.emotion)).sum := by
  induction l with
  | nil => rfl
  | cons c rest ih =>
    rw [evalEmotionConds_ok, List.all_cons, Bool.and_eq_true] at h
    have ht := ih (by rw [evalEmotionConds_ok]; exact h.2)
    simp [evalEmotionConds, h.1, ht]

/-- The signal loop evaluates every condition. -/
theorem evalSignalConds_ok (ctx : MatchContext) (l : List SignalCond) :
    (evalSignalConds ctx l).ok =
      l.all (fun c => evalCondition (getD ctx.trigger_signals c.signal) c.operator c.value) := by
  induction l with
  | nil => rfl
  | cons c rest ih => simp [evalSignalConds, ih]

/-- The signal loop counts every condition. -/
theorem evalSignalConds_cnt (ctx : MatchContext) (l : List SignalCond) :
    (evalSignalConds ctx l).cnt = l.length := by
  induction l with
  | nil => rfl
  | cons c rest ih => simp [evalSignalConds, ih]

/-- When every signal condition passes, the group total is the sum of
the halved actual signal values. -/
theorem evalSignalConds_total (ctx : MatchContext) (l : List SignalCond)
    (h : (evalSignalConds ctx l).ok = true) :
    (evalSignalConds ctx l).total =
      (l.map (fun c => getD ctx.trigger_signals c.signal * (1/2))).sum := by
  induction l with
  | nil => rfl
  | cons c rest ih =>
    rw [evalSignalConds_ok, List.all_cons, Bool.and_eq_true] at h
    have ht := ih (by rw [evalSignalConds_ok]; exact h.2)
    simp [evalSignalConds, h.1, ht]

/-- A gated group keeps `matched` exactly when both sides are matched. -/
theorem gateAcc_ok (a g : CondAcc) : (gateAcc a g).ok = (a.ok && g.ok) := by
  unfold gateAcc seqAcc
  by_cases h : a.ok <;> simp [h]

/-- A gated group that ends matched passed its gate, matched its
conditions, and accumulated both totals and counts. -/
theorem gateAcc_parts {a g : CondAcc} (h : (gateAcc a g).ok = true) :
    a.ok = true ∧ g.ok = true ∧ (gateAcc a g).total = a.total + g.total ∧
    (gateAcc a g).cnt = a.cnt + g.cnt := by
  have hand : (a.ok && g.ok) = true := by rw [← gateAcc_ok]; exact h
  rw [Bool.and_eq_true] at hand
  have heq : gateAcc a g = seqAcc a g := by unfold gateAcc; rw [if_pos hand.1]
  exact ⟨hand.1, hand.2, by rw [heq]; rfl, by rw [heq]; rfl⟩

/-- Aggregate facts about the (optional) emotion group. -/
theorem optEmotion_parts (ctx : MatchContext) (o : Option (List EmotionCond)) :
    ((optAcc (evalEmotionConds ctx) o).ok = true →
      (optAcc (evalEmotionConds ctx) o).total =
        (match o with
         | none => 0
         | some l => (l.map (fun c => getD ctx.emotions c.emotion)).sum)) ∧
    (optAcc (evalEmotionConds ctx) o).cnt =
      (match o with | none => 0 | some l => l.length) ∧
    ((optAcc (evalEmotionConds ctx) o).cnt = 0 →
      (optAcc (evalEmotionConds ctx) o).total = 0) := by
  cases o with
  | none => exact ⟨fun _ => rfl, rfl, fun _ => rfl⟩
  | some l =>
    refine ⟨fun h => evalEmotionConds_total ctx l h, evalEmotionConds_cnt ctx l, ?_⟩
    intro hc
    rw [show (optAcc (evalEmotionConds ctx) (some l)).cnt = (evalEmotionConds ctx l).cnt from rfl,
      evalEmotionConds_cnt, List.length_eq_zero] at hc
    subst hc
    rfl

/-- Aggregate facts about the (optional) signal group. -/
theorem optSignal_parts (ctx : MatchContext) (o : Option (List SignalCond)) :
    ((optAcc (evalSignalConds ctx) o).ok = true →
      (optAcc (evalSignalConds ctx) o).total =
        (match o with
         | none => 0
         | some l => (l.map (fun c => getD ctx.trigger_signals c.signal * (1/2))).sum)) ∧
    (optAcc (evalSignalConds ctx) o).cnt =
      (match o with | none => 0 | some l => l.length) ∧
    ((optAcc (evalSignalConds ctx) o).cnt = 0 →
      (optAcc (evalSignalConds ctx) o).total = 0) := by
  cases o with
  | none => exact ⟨fun _ => rfl, rfl, fun _ => rfl⟩
  | some l =>
    refine ⟨fun h => evalSignalConds_total ctx l h, evalSignalConds_cnt ctx l, ?_⟩
    intro hc
    rw [show (optAcc (evalSignalConds ctx) (some l)).cnt = (evalSignalConds ctx l).cnt from rfl,
      evalSignalConds_cnt, List.length_eq_zero] at hc
    subst hc
    rfl

/-- Aggregate facts about the (optional) arousal condition. -/
theorem optArousal_parts (ctx : MatchContext) (o : Option ArousalCond) :
    ((optAcc (arousalAcc ctx) o).ok = true →
      (optAcc (arousalAcc ctx) o).total =
        (match o with | none => 0 | some _ => ctx.arousal * (3/10))) ∧
    (optAcc (arousalAcc ctx) o).cnt = (match o with | none => 0 | some _ => 1) ∧
    ((optAcc (arousalAcc ctx) o).cnt = 0 → (optAcc (arousalAcc ctx) o).total = 0) := by
  cases o with
  | none => exact ⟨fun _ => rfl, rfl, fun _ => rfl⟩
  | some c =>
    refine ⟨?_, rfl, ?_⟩
    · intro h
      replace h : evalCondition ctx.arousal c.operator c.value = true := h
      show (arousalAcc ctx c).total = ctx.arousal * (3/10)
      unfold arousalAcc
      simp [h]
    · intro hc
      exact absurd hc (by simp [optAcc, arousalAcc])

/-- Aggregate facts about the (optional) context-keyword condition. -/
theorem optContext_parts (ctx : MatchContext) (o : Option (List String)) :
    ((optAcc (contextAcc ctx) o).ok = true →
      (optAcc (contextAcc ctx) o).total =
        (match o with | none => 0 | some _ => 1/5)) ∧
    (optAcc (contextAcc ctx) o).cnt = (match o with | none => 0 | some _ => 1) ∧
    ((optAcc (contextAcc ctx) o).cnt = 0 → (optAcc (contextAcc ctx) o).total = 0) := by
  cases o with
  | none => exact ⟨fun _ => rfl, rfl, fun _ => rfl⟩
  | some kws =>
    refine ⟨?_, rfl, ?_⟩
    · intro h
      replace h : kws.any (fun kw => strHas ctx.context kw) = true := h
      show (contextAcc ctx kws).total = 1/5
      unfold contextAcc
      simp [h]
    · intro hc
      exact absurd hc (by simp [optAcc, contextAcc])

/-- Aggregate facts about the (optional) risk-level condition. -/
theorem optRisk_parts (ctx : MatchContext) (o : Option (List String)) :
    ((optAcc (riskAcc ctx) o).ok = true →
      (optAcc (riskAcc ctx) o).total =
        (match o with | none => 0 | some _ => riskTierScore ctx.risk_level)) ∧
    (optAcc (riskAcc ctx) o).cnt = (match o with | none => 0 | some _ => 1) ∧
    ((optAcc (riskAcc ctx) o).cnt = 0 → (optAcc (riskAcc ctx) o).total = 0) := by
  cases o with
  | none => exact ⟨fun _ => rfl, rfl, fun _ => rfl⟩
  | some lvls =>
    refine ⟨?_, rfl, ?_⟩
    · intro h
      replace h : lvls.contains ctx.risk_level = true := h
      show (riskAcc ctx lvls).total = riskTierScore ctx.risk_level
      unfold riskAcc
      simp only [h, eq_self_iff_true, if_true]
    · intro hc
      exact absurd hc (by simp [optAcc, riskAcc])

/-- The `dedupFirstAux` yields a duplicate-free list avoiding the seen set. -/
theorem dedupFirstAux_nodup (l : List Int) : ∀ seen : List Int,
    (dedupFirstAux seen l).Nodup ∧ ∀ x ∈ dedupFirstAux seen l, x ∉ seen := by
  induction l with
  | nil => intro seen; simp [dedupFirstAux]
  | cons x xs ih =>
    intro seen
    by_cases hx : x ∈ seen
    · rw [dedupFirstAux, if_pos hx]
      exact ih seen
    · rw [dedupFirstAux, if_neg hx]
      obtain ⟨h1, h2⟩ := ih (x :: seen)
      constructor
      · refine List.nodup_cons.mpr ⟨?_, h1⟩
        intro hmem
        exact (h2 x hmem) (List.mem_cons_self x seen)
      · intro y hy
        rcases List.mem_cons.mp hy with rfl | hy2
        · exact hx
        · intro hyseen
          exact (h2 y hy2) (List.mem_cons_of_mem x hyseen)

/-- First-occurrence de-duplication produces pairwise-distinct ids. -/
theorem dedupFirst_nodup (l : List Int) : (dedupFirst l).Nodup :=
  (dedupFirstAux_nodup l []).1

/-- The selected id list is duplicate-free. -/
theorem selectedSkillIds_nodup (rs : List RuleMatchResult) (m : Nat) :
    (selectedSkillIds rs m).Nodup :=
  (dedupFirst_nodup _).sublist (List.take_sublist m _)

/-- The selected id list respects the `max_skills` bound. -/
theorem selectedSkillIds_length (rs : List RuleMatchResult) (m : Nat) :
    (selectedSkillIds rs m).length ≤ m :=
  List.length_take_le m _

/-- The `get_skills_by_ids` on a repository with unique primary keys
returns rows with pairwise-distinct ids, at most one per requested id. -/
theorem getSkillsByIds_spec (repo : RepoState) (ids : List Int)
    (hrepo : (repo.skills.map (fun s => s.id)).Nodup) :
    ((getSkillsByIds repo ids).map (fun s => s.id)).Nodup ∧
    ((getSkillsByIds repo ids).length ≤ ids.length) := by
  unfold getSkillsByIds
  by_cases hids : ids = []
  · simp [hids]
  · rw [if_neg hids]
    have hsub : List.Sublist
        ((repo.skills.filter (fun s => ids.contains s.id)).map (fun s => s.id))
        (repo.skills.map (fun s => s.id)) :=
      (List.filter_sublist repo.skills).map (fun s => s.id)
    have hnod : ((repo.skills.filter (fun s => ids.contains s.id)).map
        (fun s => s.id)).Nodup := hrepo.sublist hsub
    refine ⟨hnod, ?_⟩
    have hmemids : ∀ y ∈ (repo.skills.filter (fun s => ids.contains s.id)).map
        (fun s => s.id), y ∈ ids := by
      intro y hy
      rw [List.mem_map] at hy
      obtain ⟨s, hs, rfl⟩ := hy
      have := (List.mem_filter.mp hs).2
      simpa using this
    have hsubset : ((repo.skills.filter (fun s => ids.contains s.id)).map
        (fun s => s.id)).toFinset ⊆ ids.toFinset := by
      intro y hy
      rw [List.mem_toFinset] at hy ⊢
      exact hmemids y hy
    calc (repo.skills.filter (fun s => ids.contains s.id)).length
        = ((repo.skills.filter (fun s => ids.contains s.id)).map
            (fun s => s.id)).length := (List.length_map _ _).symm
      _ = ((repo.skills.filter (fun s => ids.contains s.id)).map
            (fun s => s.id)).toFinset.card := (List.toFinset_card_of_nodup hnod).symm
      _ ≤ ids.toFinset.card := Finset.card_le_card hsubset
      _ ≤ ids.length := ids.toFinset_card_le

/-! ## Claim theorems -/

/-- Claim C9.  For every risk score in `[0, 100)` the mapping of
`_calculate_risk_level` yields exactly one `RiskLevel` — `CRITICAL` iff
the score is ≥ 70, `HIGH` iff it lies in `[50, 70)`, `MEDIUM` iff it lies
in `[30, 50)`, and `LOW` otherwise (score < 30) — and the mapping is
monotone: `s1 ≤ s2` implies the level of `s1` is ≤ the level of `s2` in
the order LOW < MEDIUM < HIGH < CRITICAL. -/
theorem C9_score_level_mapping (s s1 s2 : ℚ) (_hs0 : 0 ≤ s) (_hs100 : s < 100)
    (hle : s1 ≤ s2) :
    ((scoreToRiskLevel s = RiskLevel.CRITICAL ↔ 70 ≤ s) ∧
     (scoreToRiskLevel s = RiskLevel.HIGH ↔ 50 ≤ s ∧ s < 70) ∧
     (scoreToRiskLevel s = RiskLevel.MEDIUM ↔ 30 ≤ s ∧ s < 50) ∧
     (scoreToRiskLevel s = RiskLevel.LOW ↔ s < 30)) ∧
    (scoreToRiskLevel s1).idx ≤ (scoreToRiskLevel s2).idx := by
  constructor
  · unfold scoreToRiskLevel
    split_ifs with h1 h2 h3 <;>
      refine ⟨?_, ?_, ?_, ?_⟩ <;> simp_all <;> intros <;> linarith
  · unfold scoreToRiskLevel
    split_ifs <;> simp only [RiskLevel.idx] <;> first | omega | linarith

/-- Witness for C9 at `s = 55`, `s1 = 35`, `s2 = 75`. -/
theorem C9_score_level_mapping_witness :
    (0:ℚ) ≤ 55 ∧ (55:ℚ) < 100 ∧ (35:ℚ) ≤ 75 ∧
    (scoreToRiskLevel 55 = RiskLevel.HIGH ↔ 50 ≤ (55:ℚ) ∧ (55:ℚ) < 70) ∧
    (scoreToRiskLevel 35).idx ≤ (scoreToRiskLevel 75).idx := by
  have h := C9_score_level_mapping 55 35 75 (by norm_num) (by norm_num) (by norm_num)
  exact ⟨by norm_num, by norm_num, by norm_num, h.1.2.1, h.2⟩

/-- Claim C3, counterexample.  On the scenario-C input
(self_harm 0.8, despair 0.7, slope 0.35, all else absent) the urgency
score returned by `evaluate_risk` is 0.49
(= 0.35·0.8 + 0.25·0.7 + 0.05·min(0.7, 1)), which is *not* ≥ 0.8 as the
claim states. -/
theorem C3_urgency_counterexample :
    (evaluateRisk [("自伤冲动", 4/5), ("绝望", 7/10)] (7/20) none).urgency_score = 49/100 ∧
    ¬ ((evaluateRisk [("自伤冲动", 4/5), ("绝望", 7/10)] (7/20) none).urgency_score ≥ 8/10) := by
  constructor
  · simp [evaluateRisk, calcUrgencyScore, getD, getDef, getv, min_def]
    norm_num
  · simp [evaluateRisk, calcUrgencyScore, getD, getDef, getv, min_def]
    norm_num

/-- Claim C3, amended.  On the scenario-C input the risk score is 80
(40 for self-harm > 0.7, 15 for despair in (0.4, 0.7], 25 for
slope > 0.3), hence ≥ 70, the level is CRITICAL and the trigger fires;
the urgency score is 0.49 — above the 0.4 mid tier but below the claimed
0.8. -/
theorem C3_scenario_amended :
    calcRiskScore [("自伤冲动", 4/5), ("绝望", 7/10)] (7/20) none = 80 ∧
    calcRiskScore [("自伤冲动", 4/5), ("绝望", 7/10)] (7/20) none ≥ 70 ∧
    (evaluateRisk [("自伤冲动", 4/5), ("绝望", 7/10)] (7/20) none).risk_level =
      RiskLevel.CRITICAL ∧
    (evaluateRisk [("自伤冲动", 4/5), ("绝望", 7/10)] (7/20) none).triggered = true ∧
    (evaluateRisk [("自伤冲动", 4/5), ("绝望", 7/10)] (7/20) none).urgency_score = 49/100 := by
  have hscore : calcRiskScore [("自伤冲动", 4/5), ("绝望", 7/10)] (7/20) none = 80 := by
    simp [calcRiskScore, riskSelfHarmTerm, riskDespairTerm, riskAgitationTerm,
      riskSlopeTerm, riskCompoundTerm, riskContextTerm, riskEmptinessTerm, getD, getDef, getv]
    norm_num
  refine ⟨hscore, by rw [hscore]; norm_num, ?_, ?_, ?_⟩
  · show scoreToRiskLevel (calcRiskScore [("自伤冲动", 4/5), ("绝望", 7/10)] (7/20) none) =
      RiskLevel.CRITICAL
    rw [hscore]
    norm_num [scoreToRiskLevel]
  · show shouldTriggerIntervention
      (scoreToRiskLevel (calcRiskScore [("自伤冲动", 4/5), ("绝望", 7/10)] (7/20) none))
      (calcUrgencyScore [("自伤冲动", 4/5), ("绝望", 7/10)] (7/20)) = true
    rw [hscore]
    norm_num [scoreToRiskLevel, shouldTriggerIntervention]
  · simp [evaluateRisk, calcUrgencyScore, getD, getDef, getv, min_def]
    norm_num

/-- Claim C4, counterexample.  The urgency score is clamped only from
above (`min(urgency, 1.0)`), not to `[0, 1]`: with an empty emotion map
and slope −1 the returned urgency score is −0.1 < 0. -/
theorem C4_clamp_counterexample :
    calcUrgencyScore [] (-1) = -(1/10) ∧ calcUrgencyScore [] (-1) < 0 := by
  constructor
  · simp [calcUrgencyScore, getD, getDef, getv, min_def]
    norm_num
  · simp [calcUrgencyScore, getD, getDef, getv, min_def]
    norm_num

/-- Claim C4, amended.  For every emotion map and slope the urgency score
equals `min(weighted sum, 1)` — clamped from above only; it is
non-negative whenever the slope is ≥ 0 and all emotion values are ≥ 0,
but for negative slopes it can drop below 0 (see the counterexample). -/
theorem C4_urgency_formula (em : QMap) (slope : ℚ) :
    calcUrgencyScore em slope = min (urgencyWeightedSum em slope) 1 ∧
    (0 ≤ slope → (∀ p ∈ em, 0 ≤ p.2) → 0 ≤ calcUrgencyScore em slope) := by
  constructor
  · unfold calcUrgencyScore urgencyWeightedSum
    ring_nf
  · intro hs hm
    unfold calcUrgencyScore
    have h1 := getD_nonneg hm "自伤冲动"
    have h2 := getD_nonneg hm "绝望"
    have h3 := getD_nonneg hm "激越"
    have h4 := getD_nonneg hm "焦虑"
    have h5 := getD_nonneg hm "悲伤"
    have hmin : (0:ℚ) ≤ min (slope * 2) 1 := le_min (by linarith) (by norm_num)
    have p1 : (0:ℚ) ≤ getD em "自伤冲动" * (35/100) := by positivity
    have p2 : (0:ℚ) ≤ getD em "绝望" * (25/100) := by positivity
    have p3 : (0:ℚ) ≤ getD em "激越" * (15/100) := by positivity
    have p4 : (0:ℚ) ≤ getD em "焦虑" * (1/10) := by positivity
    have p5 : (0:ℚ) ≤ getD em "悲伤" * (1/10) := by positivity
    have p6 : (0:ℚ) ≤ min (slope * 2) 1 * (5/100) := by positivity
    exact le_min (by linarith) (by norm_num)

/-- Witness for C4 (amended) at a one-entry map and slope 0. -/
theorem C4_urgency_formula_witness :
    (0:ℚ) ≤ 0 ∧ 0 ≤ calcUrgencyScore [("悲伤", 1/2)] 0 :=
  ⟨le_refl 0, (C4_urgency_formula [("悲伤", 1/2)] 0).2 (le_refl 0) (by norm_num)⟩

/-- Claim C5, counterexample.  The compound-negative term of the risk
score counts shame (羞愧) and not anger (愤怒): sadness 1 + anxiety 1 +
shame 1 pushes the sum over 2.0 and adds 10, removing shame drops the
score to 0, and sadness 1 + anxiety 1 + anger 1 — which the claim says
sums to 3 > 2 and adds 10 — leaves the score at 0. -/
theorem C5_shame_counterexample :
    calcRiskScore [("悲伤", 1), ("焦虑", 1), ("羞愧", 1)] 0 none = 10 ∧
    calcRiskScore [("悲伤", 1), ("焦虑", 1)] 0 none = 0 ∧
    calcRiskScore [("悲伤", 1), ("焦虑", 1), ("愤怒", 1)] 0 none = 0 := by
  refine ⟨?_, ?_, ?_⟩ <;>
  · simp [calcRiskScore, riskSelfHarmTerm, riskDespairTerm, riskAgitationTerm,
      riskSlopeTerm, riskCompoundTerm, riskContextTerm, riskEmptinessTerm, getD, getDef, getv]
    norm_num

/-- Claim C5, amended.  The compound-negative term sums sadness, anxiety,
fear, shame and guilt (+15 over 3.0, +10 over 2.0), and the whole risk
score is insensitive to anger: binding 愤怒 to any value changes
nothing. -/
theorem C5_compound_term (em : QMap) (slope : ℚ) (ctx : Option ConvContext) (v : ℚ) :
    riskCompoundTerm em =
      (if compoundNegativeSum em > 3 then 15
       else if compoundNegativeSum em > 2 then 10 else 0) ∧
    calcRiskScore (("愤怒", v) :: em) slope ctx = calcRiskScore em slope ctx := by
  constructor
  · rfl
  · simp only [calcRiskScore, riskSelfHarmTerm, riskDespairTerm, riskAgitationTerm,
      riskCompoundTerm, riskEmptinessTerm]
    rw [getD_cons_ne "愤怒" "自伤冲动" (by decide) v em,
        getD_cons_ne "愤怒" "绝望" (by decide) v em,
        getD_cons_ne "愤怒" "激越" (by decide) v em,
        getD_cons_ne "愤怒" "悲伤" (by decide) v em,
        getD_cons_ne "愤怒" "焦虑" (by decide) v em,
        getD_cons_ne "愤怒" "恐惧" (by decide) v em,
        getD_cons_ne "愤怒" "羞愧" (by decide) v em,
        getD_cons_ne "愤怒" "内疚" (by decide) v em,
        getD_cons_ne "愤怒" "空虚感" (by decide) v em]

/-- Witness for C5 (amended): anger 0.9 added to a concrete map leaves
the risk score unchanged. -/
theorem C5_compound_term_witness :
    calcRiskScore [("愤怒", 9/10), ("悲伤", 1)] 0 none = calcRiskScore [("悲伤", 1)] 0 none :=
  (C5_compound_term [("悲伤", 1)] 0 none (9/10)).2

/-- Claim C1.  If any Phase-A crisis condition holds — in particular when
the self-harm emotion is bound above 0.7 — then `route` returns
L3_CRISIS with crisis_flag = true, confidence = 1.0 and
requires_dbt = true, whatever the other signals: the crisis check runs
first and short-circuits the intervention and default phases. -/
theorem C1_crisis_overrides (cfg : RouterConfig) (text : String) (em : QMap)
    (audioF videoF : Option QMap) :
    ((∃ v, getv em "自伤冲动" = some v ∧ 7/10 < v) →
      crisisIndicators cfg text em audioF videoF ≠ []) ∧
    (crisisIndicators cfg text em audioF videoF ≠ [] →
      (route cfg text em audioF videoF).level = RouteLevel.L3_CRISIS ∧
      (route cfg text em audioF videoF).crisis_flag = true ∧
      (route cfg text em audioF videoF).confidence = 1 ∧
      (route cfg text em audioF videoF).requires_dbt = true) := by
  constructor
  · rintro ⟨v, hv, hv7⟩
    have hv5 : (1:ℚ)/2 < v := by linarith
    intro hnil
    unfold crisisIndicators at hnil
    simp only [hv, gt_iff_lt, hv5, if_true] at hnil
    simp [List.append_eq_nil] at hnil
  · intro h
    unfold route checkCrisisSignals
    simp [h]

/-- Witness for C1: self-harm 0.8 with the default config routes to
L3_CRISIS. -/
theorem C1_crisis_overrides_witness :
    crisisIndicators {} "你好" [("自伤冲动", 4/5)] none none ≠ [] ∧
    (route {} "你好" [("自伤冲动", 4/5)] none none).level = RouteLevel.L3_CRISIS ∧
    (route {} "你好" [("自伤冲动", 4/5)] none none).crisis_flag = true := by
  have h1 := (C1_crisis_overrides {} "你好" [("自伤冲动", 4/5)] none none).1
    ⟨4/5, by simp [getv], by norm_num⟩
  have h2 := (C1_crisis_overrides {} "你好" [("自伤冲动", 4/5)] none none).2 h1
  exact ⟨h1, h2.1, h2.2.1⟩

/-- Claim C8.  When no Phase-A crisis condition holds, `route` returns
L2_INTERVENTION exactly when the accumulated Phase-B score reaches the
configured L2 threshold OR at least two Phase-B indicators were
collected (each core-emotion hit, the negative-sum check, the
multi-emotion check, the arousal check and each audio/video check being
one indicator) — an explicit OR, so two weak indicators suffice even
with the score far below the threshold. -/
theorem C8_intervention_or (cfg : RouterConfig) (text : String) (em : QMap)
    (audioF videoF : Option QMap)
    (h : crisisIndicators cfg text em audioF videoF = []) :
    (route cfg text em audioF videoF).level = RouteLevel.L2_INTERVENTION ↔
      (cfg.l2_threshold ≤ interventionScore cfg em audioF videoF ∨
       2 ≤ (interventionIndicators cfg em audioF videoF).length) := by
  unfold route checkCrisisSignals checkInterventionNeeded
  by_cases hc : (interventionScore cfg em audioF videoF ≥ cfg.l2_threshold ∨
      (interventionIndicators cfg em audioF videoF).length ≥ 2)
  · simp [h, hc]
  · simp [h, hc]

/-- Witness for C8: two weak core-emotion indicators (0.32 and 0.31,
score 0.189 < 0.7) still trigger L2. -/
theorem C8_intervention_or_witness :
    crisisIndicators { dbt_emotions := ["悲伤"] } "你好" [("空虚感", 8/25), ("羞愧", 31/100)]
      none none = [] ∧
    interventionScore { dbt_emotions := ["悲伤"] } [("空虚感", 8/25), ("羞愧", 31/100)]
      none none < (7:ℚ)/10 ∧
    (route { dbt_emotions := ["悲伤"] } "你好" [("空虚感", 8/25), ("羞愧", 31/100)]
      none none).level = RouteLevel.L2_INTERVENTION := by
  have h : crisisIndicators { dbt_emotions := ["悲伤"] } "你好"
      [("空虚感", 8/25), ("羞愧", 31/100)] none none = [] := by
    simp [crisisIndicators, getv, getD, getDef, RouterConfig.crisis_keywords]
    norm_num
  refine ⟨h, ?_, ?_⟩
  · show interventionScore { dbt_emotions := ["悲伤"] } [("空虚感", 8/25), ("羞愧", 31/100)]
      none none < (7:ℚ)/10
    simp [interventionScore, interventionPairs, corePairs, negPairs, multiPairs,
      arousalPair, audioPairs, videoPairs, valuesMax, getv, getD, getDef,
      List.filterMap_cons]
    norm_num
  · refine (C8_intervention_or { dbt_emotions := ["悲伤"] } "你好"
      [("空虚感", 8/25), ("羞愧", 31/100)] none none h).2 (Or.inr ?_)
    show 2 ≤ (interventionIndicators { dbt_emotions := ["悲伤"] }
      [("空虚感", 8/25), ("羞愧", 31/100)] none none).length
    simp [interventionIndicators, interventionPairs, corePairs, negPairs, multiPairs,
      arousalPair, audioPairs, videoPairs, valuesMax, getv, getD, getDef,
      List.filterMap_cons]
    norm_num

/-- Claim C10.  The "arousal" of the Phase-B check is the maximum value of
the emotion map (`max(emotion_features.values())`, 0.0 on an empty map),
not a separate input: the high-arousal indicator fires exactly when that
maximum exceeds the L2 threshold, so any single bound emotion value
above the threshold makes it fire and add 0.3 to the intervention
score. -/
theorem C10_arousal_is_map_max (cfg : RouterConfig) (em : QMap)
    (audioF videoF : Option QMap) (k : String) (v : ℚ)
    (h1 : getv em k = some v) (h2 : cfg.l2_threshold < v) :
    (arousalPair cfg em ≠ [] ↔ cfg.l2_threshold < valuesMax em) ∧
    arousalPair cfg em = [("情绪唤醒度过高", 3/10)] ∧
    interventionScore cfg em audioF videoF =
      ((corePairs em).map Prod.snd).sum + ((negPairs cfg em).map Prod.snd).sum +
      ((multiPairs cfg em).map Prod.snd).sum + 3/10 +
      ((audioPairs audioF).map Prod.snd).sum + ((videoPairs videoF).map Prod.snd).sum := by
  have hmax : cfg.l2_threshold < valuesMax em :=
    lt_of_lt_of_le h2 (valuesMax_ge (getv_mem h1))
  have hpair : arousalPair cfg em = [("情绪唤醒度过高", 3/10)] := by
    unfold arousalPair
    rw [if_pos hmax]
  refine ⟨?_, hpair, ?_⟩
  · unfold arousalPair
    by_cases hm : cfg.l2_threshold < valuesMax em <;> simp [hm]
  · unfold interventionScore interventionPairs
    rw [hpair]
    simp [List.map_append, List.sum_append]
    ring

/-- Witness for C10: a single emotion at 0.8 exceeds the default 0.7
threshold and produces the 0.3 arousal pair. -/
theorem C10_arousal_is_map_max_witness :
    getv [("焦虑", (4:ℚ)/5)] "焦虑" = some (4/5) ∧
    arousalPair {} [("焦虑", (4:ℚ)/5)] = [("情绪唤醒度过高", 3/10)] :=
  ⟨by simp [getv],
   (C10_arousal_is_map_max {} [("焦虑", 4/5)] none none "焦虑" (4/5)
     (by simp [getv]) (by norm_num)).2.1⟩

/-- Claim C7.  A rule's `matched` flag is exactly the conjunction of all
its predicates (one failing predicate unmatches it); a matched rule's
score is the sum of its condition contributions (emotion value, signal
value × 0.5, arousal × 0.3, flat 0.2 for a context match, tiered
risk-level bonus) divided by the number of conditions evaluated, plus
`priority / 1000`; and an unmatched evaluation never appears among the
surviving rule results of `match`. -/
theorem C7_rule_score (rule : SkillMatchingRule) (ctx : MatchContext) :
    ((evalRule rule ctx).matched = allCondsHold rule ctx) ∧
    ((evalRule rule ctx).matched = true →
      (evalRule rule ctx).score =
        specCondTotal rule ctx / (specCondCount rule : ℚ) + rule.priority / 1000) ∧
    ((evalRule rule ctx).matched = false →
      ∀ rules : List SkillMatchingRule,
        evalRule rule ctx ∉ matchedRuleResults rules ctx) := by
  refine ⟨?_, ?_, ?_⟩
  · show (ruleAcc rule ctx).ok = allCondsHold rule ctx
    unfold ruleAcc allCondsHold
    cases rule.conditions.emotion_conditions <;>
    cases rule.conditions.trigger_signals <;>
    cases rule.conditions.arousal <;>
    cases rule.conditions.context_contains <;>
    cases rule.conditions.risk_level <;>
    simp [optAcc, gateAcc_ok, evalEmotionConds_ok, evalSignalConds_ok,
      arousalAcc, contextAcc, riskAcc]
  · intro h
    have h5 : (ruleAcc rule ctx).ok = true := h
    unfold ruleAcc at h5
    obtain ⟨h4, hg5, ht5, hc5⟩ := gateAcc_parts h5
    obtain ⟨h3, hg4, ht4, hc4⟩ := gateAcc_parts h4
    obtain ⟨h2, hg3, ht3, hc3⟩ := gateAcc_parts h3
    obtain ⟨h1, hg2, ht2, hc2⟩ := gateAcc_parts h2
    obtain ⟨e_t, e_c, e_z⟩ := optEmotion_parts ctx rule.conditions.emotion_conditions
    obtain ⟨s_t, s_c, s_z⟩ := optSignal_parts ctx rule.conditions.trigger_signals
    obtain ⟨a_t, a_c, a_z⟩ := optArousal_parts ctx rule.conditions.arousal
    obtain ⟨c_t, c_c, c_z⟩ := optContext_parts ctx rule.conditions.context_contains
    obtain ⟨r_t, r_c, r_z⟩ := optRisk_parts ctx rule.conditions.risk_level
    have hts : (ruleAcc rule ctx).total =
        (optAcc (evalEmotionConds ctx) rule.conditions.emotion_conditions).total +
        (optAcc (evalSignalConds ctx) rule.conditions.trigger_signals).total +
        (optAcc (arousalAcc ctx) rule.conditions.arousal).total +
        (optAcc (contextAcc ctx) rule.conditions.context_contains).total +
        (optAcc (riskAcc ctx) rule.conditions.risk_level).total := by
      unfold ruleAcc
      rw [ht5, ht4, ht3, ht2]
    have hcs : (ruleAcc rule ctx).cnt =
        (optAcc (evalEmotionConds ctx) rule.conditions.emotion_conditions).cnt +
        (optAcc (evalSignalConds ctx) rule.conditions.trigger_signals).cnt +
        (optAcc (arousalAcc ctx) rule.conditions.arousal).cnt +
        (optAcc (contextAcc ctx) rule.conditions.context_contains).cnt +
        (optAcc (riskAcc ctx) rule.conditions.risk_level).cnt := by
      unfold ruleAcc
      rw [hc5, hc4, hc3, hc2]
    have htot : (ruleAcc rule ctx).total = specCondTotal rule ctx := by
      rw [hts, e_t h1, s_t hg2, a_t hg3, c_t hg4, r_t hg5]
      rfl
    have hcnt : (ruleAcc rule ctx).cnt = specCondCount rule := by
      rw [hcs, e_c, s_c, a_c, c_c, r_c]
      rfl
    show (ruleAcc rule ctx).total / ((max (ruleAcc rule ctx).cnt 1 : ℕ) : ℚ) +
        rule.priority / 1000 =
      specCondTotal rule ctx / (specCondCount rule : ℚ) + rule.priority / 1000
    rw [htot, hcnt]
    by_cases hzero : specCondCount rule = 0
    · have hs0 :
          (optAcc (evalEmotionConds ctx) rule.conditions.emotion_conditions).cnt +
          (optAcc (evalSignalConds ctx) rule.conditions.trigger_signals).cnt +
          (optAcc (arousalAcc ctx) rule.conditions.arousal).cnt +
          (optAcc (contextAcc ctx) rule.conditions.context_contains).cnt +
          (optAcc (riskAcc ctx) rule.conditions.risk_level).cnt = 0 := by
        rw [← hcs, hcnt, hzero]
      have htot0 : specCondTotal rule ctx = 0 := by
        rw [← htot, hts, e_z (by omega), s_z (by omega), a_z (by omega),
          c_z (by omega), r_z (by omega)]
        norm_num
      rw [hzero, htot0]
      norm_num
    · have hmax : max (specCondCount rule) 1 = specCondCount rule := by omega
      rw [hmax]
  · intro hf rules hmem
    unfold matchedRuleResults at hmem
    rw [List.mem_filter] at hmem
    rw [hmem.2] at hf
    cases hf

/-- Witness for C7: on the sample rule and scenario-B context the rule
matches and its score is (0.7 + 0.5·0.5)/2 + 100/1000 = 0.575. -/
theorem C7_rule_score_witness :
    (evalRule sampleRule sampleCtx).matched = true ∧
    (evalRule sampleRule sampleCtx).score =
      specCondTotal sampleRule sampleCtx / (specCondCount sampleRule : ℚ) +
        sampleRule.priority / 1000 := by
  have hm : (evalRule sampleRule sampleCtx).matched = true := by
    show (ruleAcc sampleRule sampleCtx).ok = true
    simp [ruleAcc, sampleRule, sampleCtx, optAcc, gateAcc, seqAcc, evalEmotionConds,
      evalSignalConds, evalCondition, getD, getDef, getv]
    norm_num
  exact ⟨hm, (C7_rule_score sampleRule sampleCtx).2.1 hm⟩

/-- Claim C6.  For every request, every `max_skills`, and every repository
snapshot whose skill rows have pairwise-distinct primary keys,
`SkillMatcher.match` returns at most `max_skills` recommended skills and
their ids are pairwise distinct (ids are concatenated in descending
rule-score order, de-duplicated keeping first occurrences, and
truncated). -/
theorem C6_match_bounded_unique (repo : RepoState) (request : RecommendRequest)
    (max_skills : Nat) (hids : (repo.skills.map (fun s => s.id)).Nodup) :
    (matchSkills repo request max_skills).skills.length ≤ max_skills ∧
    ((matchSkills repo request max_skills).skills.map (fun s => s.skill_id)).Nodup := by
  have hskills : (matchSkills repo request max_skills).skills =
      (getSkillsByIds repo (selectedSkillIds
        (pipelineRuleResults repo (buildContext request)) max_skills)).map
        (fun s => skillToRecommended s
          (calcSkillScore s (buildContext request)
            (pipelineRuleResults repo (buildContext request)))
          (matchReasonFrom s (buildContext request)
            (pipelineRuleResults repo (buildContext request)))) := rfl
  rw [hskills]
  obtain ⟨hnod, hlen⟩ := getSkillsByIds_spec repo
    (selectedSkillIds (pipelineRuleResults repo (buildContext request)) max_skills) hids
  constructor
  · rw [List.length_map]
    exact le_trans hlen (selectedSkillIds_length _ _)
  · rw [List.map_map]
    have hcomp : ((fun s : RecommendedSkill => s.skill_id) ∘
        (fun s => skillToRecommended s
          (calcSkillScore s (buildContext request)
            (pipelineRuleResults repo (buildContext request)))
          (matchReasonFrom s (buildContext request)
            (pipelineRuleResults repo (buildContext request))))) =
        (fun s : DBTSkill => s.id) := by
      funext s
      rfl
    rw [hcomp]
    exact hnod

/-- Witness for C6: a two-skill repository with a rule recommending both
skills twice returns exactly 2 skills with distinct ids under
`max_skills = 2`. -/
theorem C6_match_bounded_unique_witness :
    (([{ id := 1, name := "TIPP", name_en := "TIPP" },
       { id := 2, name := "观察", name_en := "Observe" }] :
        List DBTSkill).map (fun s => s.id)).Nodup ∧
    (matchSkills { skills := [{ id := 1, name := "TIPP", name_en := "TIPP" },
                              { id := 2, name := "观察", name_en := "Observe" }] }
      { emotion_input := { emotions := [("焦虑", 7/10)], arousal := 1/2 }
        intervention_assessment :=
          { triggered := false, risk_level := .LOW, urgency_score := 1/5 } }
      2).skills.length ≤ 2 := by
  have hn : (([{ id := 1, name := "TIPP", name_en := "TIPP" },
       { id := 2, name := "观察", name_en := "Observe" }] :
        List DBTSkill).map (fun s => s.id)).Nodup := by
    simp
  exact ⟨hn, (C6_match_bounded_unique
    { skills := [{ id := 1, name := "TIPP", name_en := "TIPP" },
                 { id := 2, name := "观察", name_en := "Observe" }] }
    { emotion_input := { emotions := [("焦虑", 7/10)], arousal := 1/2 }
      intervention_assessment :=
        { triggered := false, risk_level := .LOW, urgency_score := 1/5 } }
    2 hn).1⟩

/-- The template reason is never empty. -/
theorem getSimpleReason_ne_empty (skills : List RecommendedSkill) :
    getSimpleReason skills ≠ "" := by
  unfold getSimpleReason
  split_ifs
  · decide
  · refine append_ne_empty_left _ (append_ne_empty_left _ ?_)
    decide

/-- The LLM-failure fallback reason is never empty. -/
theorem fallbackReason_ne_empty (skills : List RecommendedSkill) :
    fallbackReason skills ≠ "" := by
  cases skills with
  | nil => decide
  | cons skill rest =>
    simp only [fallbackReason]
    split_ifs <;> refine append_ne_empty_left _ (append_ne_empty_left _ ?_) <;> decide

/-- The LLM reason path is non-empty except on a successful empty
response. -/
theorem genReason_ne_empty (skills : List RecommendedSkill) (r : Except Unit String)
    (h : r = Except.error () ∨ ∃ s, r = Except.ok s ∧ s ≠ "") :
    generateRecommendationReason skills r ≠ "" := by
  unfold generateRecommendationReason
  split_ifs
  · decide
  · rcases h with rfl | ⟨s, rfl, hne⟩
    · exact fallbackReason_ne_empty skills
    · exact hne

/-- Step 3/4 of `recommend` produces a non-empty reason whenever the
LLM reason stage is disabled, fails, or succeeds non-emptily. -/
theorem reasonStep_ne_empty (b : Bool) (skills : List RecommendedSkill)
    (r : Except Unit String)
    (h : b = false ∨ r = Except.error () ∨ ∃ s, r = Except.ok s ∧ s ≠ "") :
    (if b then generateRecommendationReason skills r else getSimpleReason skills) ≠ "" := by
  cases b with
  | false => simpa using getSimpleReason_ne_empty skills
  | true =>
    rcases h with hf | h2
    · cases hf
    · simpa using genReason_ne_empty skills r h2

/-- If the (possibly fallback-extended) match result has skills and the
LLM reason stage is enabled, the final reason is exactly the LLM
response content. -/
theorem recommend_reason_of_ok (settings : RecommendationSettings) (repo : RepoState)
    (request : RecommendRequest) (e : Except Unit String) (s : String)
    (henable : settings.enable_llm_reason = true)
    (hne : (matchSkills repo request settings.max_skills_per_recommendation).skills ≠ []) :
    (recommend settings repo request
      { reason_response := Except.ok s, edge_response := e }).recommendation_reason = s := by
  unfold recommend generateRecommendationReason
  simp [hne, henable]

/-- Claim C2, counterexample.  With the LLM reason stage enabled (the
default), a request whose match succeeds, and a reason call that
*succeeds* with empty content, `recommend` returns an empty
`recommendation_reason`: the non-emptiness guarantee fails for
successful-but-empty LLM responses. -/
theorem C2_empty_reason_counterexample :
    (recommend {} fallbackRepo anxiousRequest
      { reason_response := Except.ok "", edge_response := Except.ok "" }
      ).recommendation_reason = "" := by
  apply recommend_reason_of_ok
  · rfl
  · have hids : (pipelineRuleResults fallbackRepo (buildContext anxiousRequest)).map
        (fun r => r.skill_ids) = [[1]] := by
      simp [pipelineRuleResults, matchedRuleResults, getAllRules, fallbackRepo,
        sortDescBy, insertDesc, fallbackEmotionMatch, buildContext, anxiousRequest,
        topPair, getSkillsByEmotion, getAllSkills]
      norm_num
      simp [sortDescBy, insertDesc]
    have hu : selectedSkillIds
        (pipelineRuleResults fallbackRepo (buildContext anxiousRequest)) 2 = [1] := by
      unfold selectedSkillIds
      rw [show ((pipelineRuleResults fallbackRepo (buildContext anxiousRequest)).map
        (fun r => r.skill_ids)).flatten = [1] by rw [hids]; rfl]
      rfl
    have h1 : (matchSkills fallbackRepo anxiousRequest 2).skills =
        (getSkillsByIds fallbackRepo (selectedSkillIds
          (pipelineRuleResults fallbackRepo (buildContext anxiousRequest)) 2)).map
          (fun s => skillToRecommended s
            (calcSkillScore s (buildContext anxiousRequest)
              (pipelineRuleResults fallbackRepo (buildContext anxiousRequest)))
            (matchReasonFrom s (buildContext anxiousRequest)
              (pipelineRuleResults fallbackRepo (buildContext anxiousRequest)))) := rfl
    show (matchSkills fallbackRepo anxiousRequest 2).skills ≠ []
    rw [h1, hu]
    simp [getSkillsByIds, fallbackRepo]

/-- Claim C2, amended.  For every request, repository snapshot, settings
and LLM behavior, `recommend` returns a fully-typed recommendation (the
embedding is a total function: every fallible call is already handled
inside its stage), and its `recommendation_reason` is non-empty whenever
the LLM reason stage is disabled, fails/times out, or succeeds with
non-empty content — in particular under total LLM unavailability.  The
one exception, a successful LLM response that strips to the empty
string, is the counterexample above. -/
theorem C2_reason_nonempty (settings : RecommendationSettings) (repo : RepoState)
    (request : RecommendRequest) (llm : LLMOutcome)
    (h : settings.enable_llm_reason = false ∨ llm.reason_response = Except.error () ∨
         (∃ s, llm.reason_response = Except.ok s ∧ s ≠ "")) :
    (recommend settings repo request llm).recommendation_reason ≠ "" :=
  reasonStep_ne_empty settings.enable_llm_reason _ llm.reason_response h

/-- Witness for C2 (amended): with both LLM calls failing (the default
`LLMOutcome`), the reason is still non-empty. -/
theorem C2_reason_nonempty_witness :
    (recommend {} fallbackRepo anxiousRequest {}).recommendation_reason ≠ "" :=
  C2_reason_nonempty {} fallbackRepo anxiousRequest {} (Or.inr (Or.inl rfl))

end SelfAgent
